import Mathlib

/-! Basic Item CRUD frontend

A shallow embedding of the browser-side client in `frontend/js/app.js`,
`login.js`, `register.js` and `items.js`: the token kept in `localStorage`,
the `api` wrapper around `fetch`, and the click handlers of the three pages.

Conventions of the embedding.

* JavaScript values are the type `JsVal`.  A number is given by what the
  program can observe of it, `JsNum`: whether it is truthy, whether it is
  finite, and the text `Number::toString` gives for it.
* `localStorage` is an association list from keys to string values.
* A promise is its settlement: `Except JsError α`, `error` for a rejection.
* The network is a parameter: `fetch` maps the request it is given to the
  settlement of the promise it returns.
* An event handler is a function on `World`; a rejection nobody awaits is
  recorded in `World.unhandled`.  A handler runs to completion before the next
  event is looked at, so the effects of a handler and of the `loadItems()` call
  it starts are composed sequentially.
-/

namespace ItemCrud

/-! ## JavaScript values -/

/-- A JavaScript number, as far as this program can tell numbers apart: it
only ever tests a number for truth, converts it to a string, or serialises it.
Every double has these three observations, so what holds for every `JsNum`
holds for every number. -/
structure JsNum where
  /-- The result of `ToBoolean`: false for `0`, `-0` and `NaN` only. -/
  truthy : Bool
  /-- Whether the number is finite: neither `NaN` nor an infinity. -/
  finite : Bool
  /-- The result of `Number::toString`, for instance `7`, `-2.5` or `1e+21`. -/
  text : String
deriving DecidableEq, Repr, Inhabited

/-- The number `0`. -/
def JsNum.zero : JsNum := ⟨false, true, "0"⟩

/-- The number `1`. -/
def JsNum.one : JsNum := ⟨true, true, "1"⟩

/-- The number `7`. -/
def JsNum.seven : JsNum := ⟨true, true, "7"⟩

/-- The number `10^21`, the least positive integer written with an exponent. -/
def JsNum.sextillion : JsNum := ⟨true, true, "1e+21"⟩

/-- JavaScript values that the program handles: `undefined`, and the values
that `JSON.parse` produces.  An object is the list of its own properties in
enumeration order. -/
inductive JsVal where
  | undefined
  | null
  | bool (b : Bool)
  | num (n : JsNum)
  | str (s : String)
  | arr (xs : List JsVal)
  | obj (fields : List (String × JsVal))
deriving Repr, Inhabited

/-- The error value carried by a thrown exception or a rejected promise.  The
message of an error the engine raises is the engine's own wording and stands
here only as a label. -/
structure JsError where
  name : String
  message : String
deriving DecidableEq, Repr

/-- ECMAScript `ToBoolean`: what `v ? a : b`, `!v` and `v || w` test. -/
def truthy : JsVal → Bool
  | .undefined => false
  | .null => false
  | .bool b => b
  | .num n => n.truthy
  | .str s => s != ""
  | .arr _ => true
  | .obj _ => true

/-- The expression `a || b`. -/
def jsOr (a b : JsVal) : JsVal := if truthy a then a else b

/-- Whether a value is `null` or `undefined`. -/
def isNullish : JsVal → Bool
  | .undefined => true
  | .null => true
  | _ => false

/-- The expression `a ?? b`. -/
def jsCoalesce (a b : JsVal) : JsVal := if isNullish a then b else a

/-- Own property `k` of an object given by its property list, `undefined` when
there is none. -/
def lookupField (k : String) : List (String × JsVal) → JsVal
  | [] => .undefined
  | (k', v) :: rest => if k' = k then v else lookupField k rest

/-- The expression `v?.k`, for the property names this program reads
(`access_token`, `token`, `detail`, `items`, `item_id`, `name`,
`description`): none of them is a property of a string, number, boolean or
array, so only an object can answer. -/
def optGet (v : JsVal) (k : String) : JsVal :=
  match v with
  | .obj fields => lookupField k fields
  | _ => .undefined

/-- Whether an object, given by its property list, has own property `k`. -/
def hasOwn (k : String) : List (String × JsVal) → Bool
  | [] => false
  | (k', _) :: rest => k' = k || hasOwn k rest

/-- The `TypeError` of a conversion of an object to a primitive value that
finds no callable `toString`. -/
def convertError : JsError :=
  ⟨"TypeError", "Cannot convert object to primitive value"⟩

mutual
/-- ECMAScript `ToString`, what a template literal, `Storage.setItem` and a
call of `.toString()` on a value other than `null` and `undefined` apply;
`error` is the exception thrown.  A plain object answers through
`Object.prototype.toString`, unless it has an own property `toString`, which
in parsed JSON is never callable. -/
def jsToString : JsVal → Except JsError String
  | .undefined => .ok "undefined"
  | .null => .ok "null"
  | .bool b => .ok (if b then "true" else "false")
  | .num n => .ok n.text
  | .str s => .ok s
  | .arr xs =>
    match joinElems xs with
    | .ok parts => .ok (String.intercalate "," parts)
    | .error e => .error e
  | .obj fields =>
    if hasOwn "toString" fields then .error convertError
    else .ok "[object Object]"
termination_by structural v => v
/-- The pieces `Array.prototype.join` puts together: the empty string for
`null` and `undefined`, `ToString` of the element otherwise. -/
def joinElems : List JsVal → Except JsError (List String)
  | [] => .ok []
  | x :: rest =>
    match (if isNullish x then .ok "" else jsToString x) with
    | .error e => .error e
    | .ok s =>
      match joinElems rest with
      | .ok parts => .ok (s :: parts)
      | .error e => .error e
termination_by structural xs => xs
end

/-- One lowercase hexadecimal digit. -/
def hexDigit (n : Nat) : Char :=
  if n < 10 then Char.ofNat (48 + n) else Char.ofNat (87 + n)

/-- ECMAScript `QuoteJSONString` on one character. -/
def quoteChar (c : Char) : List Char :=
  if c = '"' then ['\\', '"']
  else if c = '\\' then ['\\', '\\']
  else if c.toNat = 8 then ['\\', 'b']
  else if c.toNat = 9 then ['\\', 't']
  else if c.toNat = 10 then ['\\', 'n']
  else if c.toNat = 12 then ['\\', 'f']
  else if c.toNat = 13 then ['\\', 'r']
  else if c.toNat < 32 then
    ['\\', 'u', '0', '0', hexDigit (c.toNat / 16), hexDigit (c.toNat % 16)]
  else [c]

/-- ECMAScript `QuoteJSONString`. -/
def quoteJson (s : String) : String :=
  String.mk ('"' :: (s.data.flatMap quoteChar ++ ['"']))

mutual
/-- The call `JSON.stringify(v)`: `none` is the result `undefined`.  A finite
number is written as `ToString` writes it, any other number as `null`. -/
def jsonStringify : JsVal → Option String
  | .undefined => none
  | .null => some "null"
  | .bool b => some (if b then "true" else "false")
  | .num n => some (if n.finite then n.text else "null")
  | .str s => some (quoteJson s)
  | .arr xs => some ("[" ++ String.intercalate "," (stringifyElems xs) ++ "]")
  | .obj fields =>
    some ("\x7b" ++ String.intercalate "," (stringifyFields fields) ++ "\x7d")
termination_by structural v => v
/-- Array elements: `undefined` is written `null`. -/
def stringifyElems : List JsVal → List String
  | [] => []
  | x :: rest =>
    (match jsonStringify x with
      | some s => s
      | none => "null") :: stringifyElems rest
termination_by structural xs => xs
/-- Object members: a property whose value is `undefined` is left out. -/
def stringifyFields : List (String × JsVal) → List String
  | [] => []
  | (k, v) :: rest =>
    match jsonStringify v with
    | some s => (quoteJson k ++ ":" ++ s) :: stringifyFields rest
    | none => stringifyFields rest
termination_by structural fs => fs
end

/-- ECMAScript `WhiteSpace` and `LineTerminator` code points, the characters
`String.prototype.trim` strips. -/
def isJsSpace (c : Char) : Bool :=
  let n := c.toNat
  n = 9 || n = 10 || n = 11 || n = 12 || n = 13 || n = 32 || n = 160 ||
  n = 5760 || (8192 ≤ n && n ≤ 8202) || n = 8232 || n = 8233 || n = 8239 ||
  n = 8287 || n = 12288 || n = 65279

/-- The method `String.prototype.trim`. -/
def jsTrim (s : String) : String :=
  String.mk ((s.data.dropWhile isJsSpace).reverse.dropWhile isJsSpace).reverse

/-! ## `localStorage` -/

/-- The origin's `localStorage`: keys and their string values. -/
abbrev Storage := List (String × String)

/-- The call `localStorage.getItem(k)`: `none` is `null`. -/
def getItem (k : String) : Storage → Option String
  | [] => none
  | (k', v) :: rest => if k' = k then some v else getItem k rest

/-- The call `localStorage.setItem(k, v)`. -/
def setItem (k v : String) : Storage → Storage
  | [] => [(k, v)]
  | (k', v') :: rest =>
    if k' = k then (k, v) :: rest else (k', v') :: setItem k v rest

/-- The call `localStorage.removeItem(k)`. -/
def removeItem (k : String) (st : Storage) : Storage :=
  st.filter (fun kv => kv.1 ≠ k)

/-! ## `app.js` -/

/-- The constant `API_BASE`. -/
def API_BASE : String := ""

/-- The entry `ENDPOINTS.register`. -/
def ENDPOINTS_register : String := "/user/register/"

/-- The entry `ENDPOINTS.login`. -/
def ENDPOINTS_login : String := "/user/login/"

/-- The entry `ENDPOINTS.items_list`. -/
def ENDPOINTS_items_list : String := "/item/read/"

/-- The entry `ENDPOINTS.items_create`. -/
def ENDPOINTS_items_create : String := "/item/create/"

/-- The entry `ENDPOINTS.items_update_id`: the template literal converts `id`
to a string. -/
def ENDPOINTS_items_update_id (id : JsVal) : Except JsError String :=
  match jsToString id with
  | .ok s => .ok ("/item/update/" ++ s)
  | .error e => .error e

/-- The entry `ENDPOINTS.items_delete_id`. -/
def ENDPOINTS_items_delete_id (id : JsVal) : Except JsError String :=
  match jsToString id with
  | .ok s => .ok ("/item/delete/" ++ s)
  | .error e => .error e

/-- The function `token`: `localStorage.getItem('jwt') || ''`. -/
def token (st : Storage) : String :=
  match getItem "jwt" st with
  | some t => if t ≠ "" then t else ""
  | none => ""

/-- The function `isAuthed`: `!!token()`. -/
def isAuthed (st : Storage) : Bool := token st != ""

/-- The function `authHeader`: the object it returns, as its property list. -/
def authHeader (st : Storage) : List (String × String) :=
  let t := token st
  if t ≠ "" then [("Authorization", "Bearer " ++ t)] else []

/-- Assignment of one property: an existing key keeps its place. -/
def setProp (k v : String) : List (String × String) → List (String × String)
  | [] => [(k, v)]
  | (k', v') :: rest =>
    if k' = k then (k, v) :: rest else (k', v') :: setProp k v rest

/-- Object spread `{ ...base, ...ext }` continued from `base`. -/
def spreadInto (base ext : List (String × String)) : List (String × String) :=
  ext.foldl (fun acc kv => setProp kv.1 kv.2 acc) base

/-- What `fetch` is called with. -/
structure Request where
  url : String
  method : String
  headers : List (String × String)
  body : Option String
deriving DecidableEq, Repr

/-- A response as `api` sees it: its status, which the Fetch standard keeps
in sixteen bits, and the settlement of `resp.json()`, `none` when that promise
rejects (no body, or a body that is not JSON). -/
structure Response where
  status : Nat
  json : Option JsVal
deriving Repr

/-- The getter `Response.ok` of the Fetch standard: the status is in
`200..299`. -/
def Response.ok (r : Response) : Bool := decide (200 ≤ r.status ∧ r.status ≤ 299)

/-- The network: the settlement of the promise `fetch` returns for a request. -/
abbrev Fetch := Request → Except JsError Response

/-- The options object of `api` after destructuring with its defaults. -/
structure ApiOptions where
  method : String := "GET"
  body : JsVal := JsVal.undefined
  auth : Bool := false

/-- The object `api` resolves to. -/
structure ApiResult where
  ok : Bool
  status : Nat
  data : JsVal
deriving Repr

/-- The arguments `api` passes to `fetch`. -/
def apiRequest (st : Storage) (path : String) (opts : ApiOptions) : Request :=
  let headers :=
    spreadInto [("Content-Type", "application/json")]
      (if opts.auth then authHeader st else [])
  ⟨API_BASE ++ path, opts.method, headers,
    if truthy opts.body then jsonStringify opts.body else none⟩

/-- The part of `api` after the response has arrived. -/
def apiResult (resp : Response) : ApiResult :=
  let data :=
    match resp.json with
    | some v => v
    | none => JsVal.null
  ⟨resp.ok, resp.status, data⟩

/-- The function `api`: the settlement of the promise it returns. -/
def api (fetch : Fetch) (st : Storage) (path : String) (opts : ApiOptions) :
    Except JsError ApiResult :=
  match fetch (apiRequest st path opts) with
  | .error e => .error e
  | .ok resp => .ok (apiResult resp)

/-! ## The page -/

/-- An element of the document that the program reaches by its id: the
properties the program reads and writes. -/
structure Elem where
  className : String
  textContent : String
  value : String
  display : String
deriving DecidableEq, Repr

/-- A row that `loadItems` appends to the table body: the `id` its two
listeners close over, and the markup assigned to its `innerHTML`.  The row is
kept as that text; what the parser makes of it is asked of a `Matcher`, and no
element of a row is entered in `World.dom`. -/
structure Row where
  id : JsVal
  innerHTML : String
deriving Repr

/-- The element `#items-tbody`: the markup last assigned to `innerHTML` and the
rows appended since. -/
structure TableBody where
  innerHTML : String
  rows : List Row
deriving Repr

/-- What the handlers read and write. -/
structure World where
  /-- The origin's `localStorage`. -/
  storage : Storage
  /-- The elements that have an id. -/
  dom : List (String × Elem)
  /-- The property `style.display` of the element `.nav`, when there is one. -/
  nav : Option String
  /-- The element `#items-tbody`, when there is one. -/
  table : Option TableBody
  /-- The last value assigned to `window.location.href`. -/
  href : String
  /-- The requests passed to `fetch` so far, oldest first. -/
  sent : List Request
  /-- The rejections of promises nobody awaits, oldest first. -/
  unhandled : List JsError

/-- The network over time: the answer to a request may depend on the requests
sent before it. -/
abbrev Net := List Request → Fetch

/-- The HTML parser and selector engine of the browser, as far as `loadItems`
uses them: `hasMatch markup selector` tells whether a `tr` whose `innerHTML`
was assigned `markup` has a descendant that `querySelector(selector)` finds. -/
abbrev Matcher := String → String → Bool

/-- The call `document.getElementById(id)`: `none` is `null`. -/
def getElementById (id : String) (w : World) : Option Elem :=
  (w.dom.find? (fun e => e.1 = id)).map (fun e => e.2)

/-- Replace the first element whose id is `id`. -/
def replaceElem (id : String) (el : Elem) : List (String × Elem) → List (String × Elem)
  | [] => []
  | (id', el') :: rest =>
    if id' = id then (id', el) :: rest else (id', el') :: replaceElem id el rest

/-- Write back the properties of the element `id`. -/
def setElem (id : String) (el : Elem) (w : World) : World :=
  { w with dom := replaceElem id el w.dom }

/-- A handler's promise rejects and nobody awaits it. -/
def raise (e : JsError) (w : World) : World :=
  { w with unhandled := w.unhandled ++ [e] }

/-- The `TypeError` of reading or writing property `prop` of `null`. -/
def nullError (prop : String) : JsError :=
  ⟨"TypeError", "Cannot read properties of null (reading " ++ prop ++ ")"⟩

/-- The function `setStatus`. -/
def setStatus (id msg : String) (ok : Bool) (w : World) : World :=
  match getElementById id w with
  | none => w
  | some el =>
    setElem id
      { el with
        className := "status " ++ (if ok then "ok" else "err"),
        textContent := msg } w

/-- The function `clearStatus`. -/
def clearStatus (id : String) (w : World) : World :=
  match getElementById id w with
  | some el => setElem id { el with className := "status", textContent := "" } w
  | none => w

/-- A call of `api` from a handler: the request is recorded, the settlement is
the network's. -/
def apiCall (net : Net) (path : String) (opts : ApiOptions) (w : World) :
    World × Except JsError ApiResult :=
  ({ w with sent := w.sent ++ [apiRequest w.storage path opts] },
    api (net w.sent) w.storage path opts)

/-- The template literal of the error status line: the text
"Error (status): " followed by `data?.detail || fallback` converted to a
string. -/
def errorText (status : Nat) (data : JsVal) (fallback : String) :
    Except JsError String :=
  match jsToString (jsOr (optGet data "detail") (.str fallback)) with
  | .ok s => .ok ("Error (" ++ toString status ++ "): " ++ s)
  | .error e => .error e

/-- The function `guardPage`. -/
def guardPage (w : World) : World :=
  if !isAuthed w.storage then
    { setStatus "login-status" "Please log in to access this page." false w with
      href := "login.html" }
  else w

/-- The function `ensureFloatingLogout`: the button is created, hidden, when
the document has none. -/
def ensureFloatingLogout (w : World) : World :=
  match getElementById "floating-logout" w with
  | some _ => w
  | none =>
    { w with dom := w.dom ++ [("floating-logout", ⟨"btn ghost", "Log out", "", "none"⟩)] }

/-- Assignment to `style.display` of the element `id`, when there is one. -/
def setDisplay (id d : String) (w : World) : World :=
  match getElementById id w with
  | some el => setElem id { el with display := d } w
  | none => w

/-- Assignment to `style.display` of the element `.nav`, when there is one. -/
def setNavDisplay (d : String) (w : World) : World :=
  match w.nav with
  | some _ => { w with nav := some d }
  | none => w

/-- The function `toggleChromeForAuth`. -/
def toggleChromeForAuth (w : World) : World :=
  let authed :=
    match getItem "jwt" w.storage with
    | some t => t != ""
    | none => false
  let w1 := ensureFloatingLogout w
  if authed then
    setDisplay "floating-logout" "inline-block" (setNavDisplay "none" w1)
  else
    setDisplay "floating-logout" "none" (setNavDisplay "" w1)

/-- The click listener that `setupNavbar` puts on `#logout-btn`. -/
def navLogoutClick (w : World) : World :=
  let w1 := { w with storage := removeItem "jwt" w.storage }
  let w2 := toggleChromeForAuth w1
  { w2 with href := "login.html" }

/-- The `onclick` that `ensureFloatingLogout` gives the floating button. -/
def floatingLogoutClick (w : World) : World :=
  let w1 := { w with storage := removeItem "jwt" w.storage }
  let w2 := setNavDisplay "" w1
  let w3 := setDisplay "floating-logout" "none" w2
  let w4 := setDisplay "logout-btn" "none" w3
  { w4 with href := "login.html" }

/-! ## `login.js` -/

/-- The click listener of `#login-btn`. -/
def loginClick (net : Net) (w0 : World) : World :=
  let w := clearStatus "login-status" w0
  match getElementById "login-username" w with
  | none => raise (nullError "value") w
  | some userEl =>
    let username := jsTrim userEl.value
    match getElementById "login-password" w with
    | none => raise (nullError "value") w
    | some passEl =>
      let password := passEl.value
      if username = "" ∨ password = "" then
        setStatus "login-status" "Username and password required." false w
      else
        let call :=
          apiCall net ENDPOINTS_login
            ⟨"POST", .obj [("username", .str username), ("password", .str password)], false⟩ w
        match call.2 with
        | .error e => raise e call.1
        | .ok r =>
          if r.ok then
            let jwt :=
              jsOr (jsOr (optGet r.data "access_token") (optGet r.data "token")) .null
            if !truthy jwt then
              setStatus "login-status"
                "No token returned by API. Check endpoint mapping." false call.1
            else
              match jsToString jwt with
              | .error e => raise e call.1
              | .ok stored =>
                let w1 := { call.1 with storage := setItem "jwt" stored call.1.storage }
                let w2 := setStatus "login-status" "Logged in! Redirecting…" true w1
                { w2 with href := "items.html" }
          else
            match errorText r.status r.data "Login failed." with
            | .error e => raise e call.1
            | .ok msg => setStatus "login-status" msg false call.1

/-! ## `register.js` -/

/-- The click listener of `#register-btn`. -/
def registerClick (net : Net) (w0 : World) : World :=
  let w := clearStatus "register-status" w0
  match getElementById "reg-username" w with
  | none => raise (nullError "value") w
  | some userEl =>
    let username := jsTrim userEl.value
    match getElementById "reg-email" w with
    | none => raise (nullError "value") w
    | some mailEl =>
      let email := jsTrim mailEl.value
      match getElementById "reg-password" w with
      | none => raise (nullError "value") w
      | some passEl =>
        let password := passEl.value
        if username = "" ∨ email = "" ∨ password = "" then
          setStatus "register-status" "All fields are required." false w
        else
          let call :=
            apiCall net ENDPOINTS_register
              ⟨"POST",
                .obj [("username", .str username), ("email", .str email),
                  ("password", .str password)],
                false⟩ w
          match call.2 with
          | .error e => raise e call.1
          | .ok r =>
            if r.ok then
              let w1 := setStatus "register-status" "Success! You can now log in." true call.1
              { w1 with href := "thankyou.html" }
            else
              match errorText r.status r.data "Registration failed." with
              | .error e => raise e call.1
              | .ok msg => setStatus "register-status" msg false call.1

/-! ## `items.js` -/

/-- The expression `v.k` for the property names `loadItems` reads from an item
(`id`, `item_id`, `name`, `description`): reading from `null` or `undefined`
throws, and only an object has such a property. -/
def getProp (v : JsVal) (k : String) : Except JsError JsVal :=
  match v with
  | .undefined => .error (nullError k)
  | .null => .error (nullError k)
  | .obj fields => .ok (lookupField k fields)
  | _ => .ok .undefined

/-- The call `s.replaceAll('"', '&quot;')`. -/
def escapeQuotes (s : String) : String :=
  String.mk (s.data.flatMap (fun c => if c = '"' then "&quot;".data else [c]))

/-- The text `(v ?? '').toString().replaceAll('"', '&quot;')`. -/
def attrText (v : JsVal) : Except JsError String :=
  match jsToString (jsCoalesce v (.str "")) with
  | .ok s => .ok (escapeQuotes s)
  | .error e => .error e

/-- The template literal assigned to `tr.innerHTML`, with the three texts
substituted as they are. -/
def rowMarkup (idText nameAttr descAttr : String) : String :=
  "\n      <td><code>" ++
    idText ++
    "</code></td>\n      <td><input value=\"" ++
    nameAttr ++
    "\" data-field=\"name\" style=\"width:100%;\" /></td>\n      <td><input value=\"" ++
    descAttr ++
    "\" data-field=\"description\" style=\"width:100%;\" /></td>\n      <td>\n        <div class=\"row-actions\">\n          <button class=\"btn\" data-action=\"save\">Save</button>\n          <button class=\"btn\" data-action=\"delete\" style=\"border-color: rgba(239,68,68,0.35);\">Delete</button>\n        </div>\n      </td>\n    "

/-- One turn of the loop of `loadItems` up to `tbody.appendChild(tr)`: the row
built for the item `it`.  The id is written into the markup unescaped, so the
parsed row need not contain the two buttons; `addEventListener` on the `null`
that `querySelector` then returns throws. -/
def renderRow (hasMatch : Matcher) (it : JsVal) : Except JsError Row :=
  match getProp it "id" with
  | .error e => .error e
  | .ok idProp =>
    let id := jsCoalesce (jsCoalesce idProp (optGet it "item_id")) (.str "")
    match jsToString id with
    | .error e => .error e
    | .ok idText =>
      match attrText (optGet it "name") with
      | .error e => .error e
      | .ok nameAttr =>
        match attrText (optGet it "description") with
        | .error e => .error e
        | .ok descAttr =>
          let markup := rowMarkup idText nameAttr descAttr
          if !hasMatch markup "[data-action=\"save\"]" then
            .error (nullError "addEventListener")
          else if !hasMatch markup "[data-action=\"delete\"]" then
            .error (nullError "addEventListener")
          else .ok ⟨id, markup⟩

/-- Append a row to the table body. -/
def appendRow (row : Row) (w : World) : World :=
  match w.table with
  | some tb => { w with table := some ⟨tb.innerHTML, tb.rows ++ [row]⟩ }
  | none => w

/-- The loop `for (const it of items)` over the items still to come: an
exception ends it and leaves the rows appended so far. -/
def appendRows (hasMatch : Matcher) : List JsVal → World → World
  | [], w => w
  | it :: rest, w =>
    match renderRow hasMatch it with
    | .error e => raise e w
    | .ok row => appendRows hasMatch rest (appendRow row w)

/-- The test `!items.length`, on the array or truthy value that `items` is:
the length of an array or a string is falsy when there is no element and no
character, an object answers with its own property `length`, and a number or
a boolean has none. -/
def lacksLength : JsVal → Bool
  | .arr xs => xs.isEmpty
  | .str s => s.data.isEmpty
  | .obj fields => !truthy (lookupField "length" fields)
  | _ => true

/-- What `for ... of` iterates over: the elements of an array, the code
points of a string; nothing else that has a truthy `length` here is iterable. -/
def iterate : JsVal → Except JsError (List JsVal)
  | .arr xs => .ok xs
  | .str s => .ok (s.data.map (fun c => JsVal.str (String.singleton c)))
  | _ => .error ⟨"TypeError", "items is not iterable"⟩

/-- Assignment to `tbody.innerHTML`. -/
def setTableHtml (html : String) (w : World) : World :=
  { w with table := some ⟨html, []⟩ }

/-- The function `loadItems`. -/
def loadItems (net : Net) (hasMatch : Matcher) (w0 : World) : World :=
  let w := clearStatus "items-status" w0
  match w.table with
  | none => raise (nullError "innerHTML") w
  | some _ =>
    let w1 :=
      setTableHtml
        "<tr><td colspan=\"4\" class=\"hint\" style=\"padding:14px;\">Loading…</td></tr>" w
    let call := apiCall net ENDPOINTS_items_list ⟨"GET", .undefined, true⟩ w1
    match call.2 with
    | .error e => raise e call.1
    | .ok r =>
      if !r.ok then
        setTableHtml
          ("<tr><td colspan=\"4\" style=\"padding:14px; color:#ef9a9a;\">Error (" ++
            toString r.status ++
            "). Check items_list path or authentication.</td></tr>") call.1
      else
        let items :=
          match r.data with
          | .arr xs => JsVal.arr xs
          | d => jsOr (optGet d "items") (.arr [])
        if lacksLength items then
          setTableHtml
            "<tr><td colspan=\"4\" class=\"hint\" style=\"padding:14px;\">No items found.</td></tr>"
            call.1
        else
          let w2 := setTableHtml "" call.1
          match iterate items with
          | .error e => raise e w2
          | .ok its => appendRows hasMatch its w2

/-- The click listener of a row's Save button; `id` is the row's id, and
`nameInput`, `descInput` are what the row's two inputs hold at the click,
`none` when the row has no such input. -/
def saveClick (net : Net) (hasMatch : Matcher) (id : JsVal)
    (nameInput descInput : Option String) (w : World) : World :=
  match nameInput with
  | none => raise (nullError "value") w
  | some nameValue =>
    let name := jsTrim nameValue
    match descInput with
    | none => raise (nullError "value") w
    | some descValue =>
      let description := jsTrim descValue
      match ENDPOINTS_items_update_id id with
      | .error e => raise e w
      | .ok path =>
        let call :=
          apiCall net path
            ⟨"PUT", .obj [("name", .str name), ("description", .str description)], true⟩ w
        match call.2 with
        | .error e => raise e call.1
        | .ok r =>
          if r.ok then
            loadItems net hasMatch (setStatus "items-status" "Saved." true call.1)
          else
            match errorText r.status r.data "Update failed." with
            | .error e => raise e call.1
            | .ok msg => setStatus "items-status" msg false call.1

/-- The click listener of a row's Delete button; `confirmed` is the answer to
the `confirm` dialog. -/
def deleteClick (net : Net) (hasMatch : Matcher) (id : JsVal) (confirmed : Bool)
    (w : World) : World :=
  if !confirmed then w
  else
    match ENDPOINTS_items_delete_id id with
    | .error e => raise e w
    | .ok path =>
      let call := apiCall net path ⟨"DELETE", .undefined, true⟩ w
      match call.2 with
      | .error e => raise e call.1
      | .ok r =>
        if r.ok then
          loadItems net hasMatch (setStatus "items-status" "Deleted." true call.1)
        else
          match errorText r.status r.data "Delete failed." with
          | .error e => raise e call.1
          | .ok msg => setStatus "items-status" msg false call.1

/-- Assignment to the property `value` of the element `id`; on `null` it
throws. -/
def setValue (id v : String) (w : World) : Except JsError World :=
  match getElementById id w with
  | some el => .ok (setElem id { el with value := v } w)
  | none => .error (nullError "value")

/-- The click listener of `#create-item`. -/
def createItemClick (net : Net) (hasMatch : Matcher) (w0 : World) : World :=
  let w := clearStatus "items-status" w0
  match getElementById "item-name" w with
  | none => raise (nullError "value") w
  | some nameEl =>
    let name := jsTrim nameEl.value
    match getElementById "item-desc" w with
    | none => raise (nullError "value") w
    | some descEl =>
      let description := jsTrim descEl.value
      if name = "" then setStatus "items-status" "Name is required." false w
      else
        let call :=
          apiCall net ENDPOINTS_items_create
            ⟨"POST", .obj [("name", .str name), ("description", .str description)], true⟩ w
        match call.2 with
        | .error e => raise e call.1
        | .ok r =>
          if r.ok then
            let w1 := setStatus "items-status" "Created." true call.1
            match setValue "item-name" "" w1 with
            | .error e => raise e w1
            | .ok w2 =>
              match setValue "item-desc" "" w2 with
              | .error e => raise e w2
              | .ok w3 => loadItems net hasMatch w3
          else
            match errorText r.status r.data "Create failed." with
            | .error e => raise e call.1
            | .ok msg => setStatus "items-status" msg false call.1

/-- The class and the text of the status line `id`, when the page has it. -/
def statusLine (id : String) (w : World) : Option (String × String) :=
  (getElementById id w).map (fun el => (el.className, el.textContent))

/-- What an error line shows after the status code, the string form of
`data?.detail || fallback`: the fallback when `data.detail` is falsy (absent,
`null`, `false`, `0`, the empty string), the detail converted to a string when
it is truthy. -/
def ShowsDetail (data : JsVal) (fallback shown : String) : Prop :=
  (truthy (optGet data "detail") = false ∧ shown = fallback) ∨
  (truthy (optGet data "detail") = true ∧ jsToString (optGet data "detail") = .ok shown)

/-- What it is for `api` to hand the request `req` to `fetch`: whatever the
network, the promise of `api` settles as the network's answer to `req`
settles. -/
def ApiSends (st : Storage) (path : String) (opts : ApiOptions) (req : Request) : Prop :=
  ∀ fetch : Fetch, api fetch st path opts = Except.map apiResult (fetch req)

/-- A server that answers a request with a body with 200 and, as JSON, the
text of that body, and a request without a body with 204 and no content. -/
def echoServer : Fetch :=
  fun req =>
    match req.body with
    | some text => .ok ⟨200, some (JsVal.str text)⟩
    | none => .ok ⟨204, none⟩

/-! ## Example pages -/

/-- A login page: blank username, a password, an old message on the status
line, a stored token, a server that answers every request with 200. -/
def blankLoginPage : World :=
  ⟨[("jwt", "old")],
    [("login-username", ⟨"", "", "  \t ", ""⟩), ("login-password", ⟨"", "", "secret", ""⟩),
      ("login-status", ⟨"status ok", "Logged in! Redirecting…", "", ""⟩)],
    some "", none, "login.html", [], []⟩

/-- A login page with the form filled in, nothing stored, an empty status
line. -/
def filledLoginPage : World :=
  ⟨[],
    [("login-username", ⟨"", "", " ann ", ""⟩), ("login-password", ⟨"", "", "secret", ""⟩),
      ("login-status", ⟨"status", "", "", ""⟩)],
    some "", none, "login.html", [], []⟩

/-- A register page with the form filled in and an empty status line. -/
def filledRegisterPage : World :=
  ⟨[],
    [("reg-username", ⟨"", "", "ann", ""⟩), ("reg-email", ⟨"", "", "ann@example.org", ""⟩),
      ("reg-password", ⟨"", "", "secret", ""⟩), ("register-status", ⟨"status", "", "", ""⟩)],
    some "", none, "register.html", [], []⟩

/-- An items page of a logged-in user with the create form filled in. -/
def filledItemsPage : World :=
  ⟨[("jwt", "abc")],
    [("item-name", ⟨"", "", "pen", ""⟩), ("item-desc", ⟨"", "", "blue", ""⟩),
      ("items-status", ⟨"status", "", "", ""⟩)],
    some "none", some ⟨"", []⟩, "items.html", [], []⟩

/-! ## Facts about the page -/

theorem find_replaceElem_self (id : String) (el : Elem) (dom : List (String × Elem)) :
    (replaceElem id el dom).find? (fun e => e.1 = id) =
      (dom.find? (fun e => e.1 = id)).map (fun e => (e.1, el)) := by
  induction dom with
  | nil => simp [replaceElem]
  | cons e rest ih =>
    obtain ⟨id', el'⟩ := e
    by_cases h : id' = id
    · simp [replaceElem, h]
    · simp [replaceElem, h, List.find?, ih]

theorem find_replaceElem_other (id id' : String) (el : Elem) (dom : List (String × Elem))
    (h : id' ≠ id) :
    (replaceElem id el dom).find? (fun e => e.1 = id') =
      dom.find? (fun e => e.1 = id') := by
  induction dom with
  | nil => simp [replaceElem]
  | cons e rest ih =>
    obtain ⟨id'', el''⟩ := e
    by_cases h1 : id'' = id
    · subst h1
      have h2 : ¬ id'' = id' := fun h3 => h h3.symm
      simp [replaceElem, List.find?, h2]
    · by_cases h2 : id'' = id'
      · subst h2
        simp [replaceElem, h1, List.find?]
      · simp [replaceElem, h1, List.find?, h2, ih]

theorem getElementById_setElem_self (id : String) (el : Elem) (w : World) :
    getElementById id (setElem id el w) = (getElementById id w).map (fun _ => el) := by
  simp [getElementById, setElem, find_replaceElem_self, Option.map_map, Function.comp_def]

theorem getElementById_setElem_other (id id' : String) (el : Elem) (w : World)
    (h : id' ≠ id) :
    getElementById id' (setElem id el w) = getElementById id' w := by
  simp [getElementById, setElem, find_replaceElem_other id id' el w.dom h]

theorem getElementById_setStatus_other (id id' msg : String) (ok : Bool) (w : World)
    (h : id' ≠ id) :
    getElementById id' (setStatus id msg ok w) = getElementById id' w := by
  unfold setStatus
  cases getElementById id w with
  | none => rfl
  | some el => exact getElementById_setElem_other id id' _ w h

theorem getElementById_clearStatus_other (id id' : String) (w : World) (h : id' ≠ id) :
    getElementById id' (clearStatus id w) = getElementById id' w := by
  unfold clearStatus
  cases getElementById id w with
  | none => rfl
  | some el => exact getElementById_setElem_other id id' _ w h

theorem statusLine_setStatus (id msg : String) (ok : Bool) (w : World)
    (h : (getElementById id w).isSome = true) :
    statusLine id (setStatus id msg ok w) =
      some ("status " ++ (if ok then "ok" else "err"), msg) := by
  unfold setStatus statusLine
  cases hg : getElementById id w with
  | none => simp [hg] at h
  | some el => simp [getElementById_setElem_self, hg]

theorem isSome_clearStatus (id id' : String) (w : World) :
    (getElementById id' (clearStatus id w)).isSome = (getElementById id' w).isSome := by
  by_cases h : id' = id
  · subst h
    unfold clearStatus
    cases hg : getElementById id' w with
    | none => simp [hg]
    | some el => simp [getElementById_setElem_self, hg]
  · rw [getElementById_clearStatus_other id id' w h]

theorem setStatus_fields (id msg : String) (ok : Bool) (w : World) :
    (setStatus id msg ok w).storage = w.storage ∧
    (setStatus id msg ok w).sent = w.sent ∧
    (setStatus id msg ok w).href = w.href ∧
    (setStatus id msg ok w).unhandled = w.unhandled ∧
    (setStatus id msg ok w).table = w.table ∧
    (setStatus id msg ok w).nav = w.nav := by
  unfold setStatus
  cases getElementById id w <;> simp [setElem]

theorem clearStatus_fields (id : String) (w : World) :
    (clearStatus id w).storage = w.storage ∧
    (clearStatus id w).sent = w.sent ∧
    (clearStatus id w).href = w.href ∧
    (clearStatus id w).unhandled = w.unhandled ∧
    (clearStatus id w).table = w.table ∧
    (clearStatus id w).nav = w.nav := by
  unfold clearStatus
  cases getElementById id w <;> simp [setElem]

theorem setDisplay_fields (id d : String) (w : World) :
    (setDisplay id d w).storage = w.storage ∧
    (setDisplay id d w).sent = w.sent ∧
    (setDisplay id d w).href = w.href ∧
    (setDisplay id d w).unhandled = w.unhandled := by
  unfold setDisplay
  cases getElementById id w <;> simp [setElem]

theorem setNavDisplay_fields (d : String) (w : World) :
    (setNavDisplay d w).storage = w.storage ∧
    (setNavDisplay d w).sent = w.sent ∧
    (setNavDisplay d w).href = w.href ∧
    (setNavDisplay d w).unhandled = w.unhandled := by
  unfold setNavDisplay
  cases w.nav <;> simp

theorem ensureFloatingLogout_fields (w : World) :
    (ensureFloatingLogout w).storage = w.storage ∧
    (ensureFloatingLogout w).sent = w.sent ∧
    (ensureFloatingLogout w).href = w.href ∧
    (ensureFloatingLogout w).unhandled = w.unhandled := by
  unfold ensureFloatingLogout
  cases getElementById "floating-logout" w <;> simp

theorem toggleChromeForAuth_fields (w : World) :
    (toggleChromeForAuth w).storage = w.storage ∧
    (toggleChromeForAuth w).sent = w.sent ∧
    (toggleChromeForAuth w).href = w.href ∧
    (toggleChromeForAuth w).unhandled = w.unhandled := by
  have key : ∀ d1 d2 : String,
      (setDisplay "floating-logout" d1 (setNavDisplay d2 (ensureFloatingLogout w))).storage =
        w.storage ∧
      (setDisplay "floating-logout" d1 (setNavDisplay d2 (ensureFloatingLogout w))).sent =
        w.sent ∧
      (setDisplay "floating-logout" d1 (setNavDisplay d2 (ensureFloatingLogout w))).href =
        w.href ∧
      (setDisplay "floating-logout" d1 (setNavDisplay d2 (ensureFloatingLogout w))).unhandled =
        w.unhandled := by
    intro d1 d2
    simp [(setDisplay_fields _ _ _).1, (setDisplay_fields _ _ _).2.1,
      (setDisplay_fields _ _ _).2.2.1, (setDisplay_fields _ _ _).2.2.2,
      (setNavDisplay_fields _ _).1, (setNavDisplay_fields _ _).2.1,
      (setNavDisplay_fields _ _).2.2.1, (setNavDisplay_fields _ _).2.2.2,
      (ensureFloatingLogout_fields _).1, (ensureFloatingLogout_fields _).2.1,
      (ensureFloatingLogout_fields _).2.2.1, (ensureFloatingLogout_fields _).2.2.2]
  unfold toggleChromeForAuth
  dsimp only
  split_ifs
  · exact key _ _
  · exact key _ _

theorem navLogoutClick_storage (w : World) :
    (navLogoutClick w).storage = removeItem "jwt" w.storage ∧
    (navLogoutClick w).unhandled = w.unhandled ∧
    (navLogoutClick w).sent = w.sent := by
  simp [navLogoutClick, (toggleChromeForAuth_fields _).1, (toggleChromeForAuth_fields _).2.1,
    (toggleChromeForAuth_fields _).2.2.2]

theorem floatingLogoutClick_storage (w : World) :
    (floatingLogoutClick w).storage = removeItem "jwt" w.storage ∧
    (floatingLogoutClick w).unhandled = w.unhandled ∧
    (floatingLogoutClick w).sent = w.sent := by
  simp [floatingLogoutClick, (setDisplay_fields _ _ _).1, (setDisplay_fields _ _ _).2.1,
    (setDisplay_fields _ _ _).2.2.2, (setNavDisplay_fields _ _).1,
    (setNavDisplay_fields _ _).2.1, (setNavDisplay_fields _ _).2.2.2]

/-! ## Facts about `localStorage` -/

theorem getItem_setItem_self (k v : String) (st : Storage) :
    getItem k (setItem k v st) = some v := by
  induction st with
  | nil => simp [setItem, getItem]
  | cons kv rest ih =>
    obtain ⟨k', v'⟩ := kv
    by_cases h : k' = k
    · simp [setItem, getItem, h]
    · simp [setItem, getItem, h, ih]

theorem getItem_removeItem_self (k : String) (st : Storage) :
    getItem k (removeItem k st) = none := by
  induction st with
  | nil => simp [removeItem, getItem]
  | cons kv rest ih =>
    obtain ⟨k', v'⟩ := kv
    by_cases h : k' = k
    · simpa [removeItem, h] using ih
    · simpa [removeItem, getItem, h] using ih

theorem getItem_removeItem_other (k k' : String) (st : Storage) (h : k' ≠ k) :
    getItem k' (removeItem k st) = getItem k' st := by
  induction st with
  | nil => simp [removeItem]
  | cons kv rest ih =>
    obtain ⟨k'', v''⟩ := kv
    have ih' : getItem k' (List.filter (fun kv => decide (kv.1 ≠ k)) rest) =
        getItem k' rest := ih
    by_cases h1 : k'' = k
    · subst h1
      have h2 : ¬ k'' = k' := fun h3 => h h3.symm
      simp only [removeItem, List.filter, getItem, h2, if_false]
      simpa using ih'
    · by_cases h2 : k'' = k'
      · subst h2
        simp [removeItem, List.filter, getItem, h1]
      · simp only [removeItem, List.filter, getItem, h2, if_false, h1, ne_eq,
          not_false_eq_true, decide_True]
        simpa using ih'

theorem removeItem_removeItem (k : String) (st : Storage) :
    removeItem k (removeItem k st) = removeItem k st := by
  simp [removeItem, List.filter_filter]

theorem token_eq_getD (st : Storage) :
    token st = (getItem "jwt" st).getD "" := by
  unfold token
  cases h : getItem "jwt" st with
  | none => rfl
  | some t => by_cases ht : t = "" <;> simp [ht]

/-! ## The request `api` hands to `fetch` -/

theorem api_eq_fetch (fetch : Fetch) (st : Storage) (path : String) (opts : ApiOptions) :
    api fetch st path opts = Except.map apiResult (fetch (apiRequest st path opts)) := by
  unfold api
  cases fetch (apiRequest st path opts) <;> rfl

theorem apiSends_apiRequest (st : Storage) (path : String) (opts : ApiOptions) :
    ApiSends st path opts (apiRequest st path opts) :=
  fun fetch => api_eq_fetch fetch st path opts

theorem apiSends_unique (st : Storage) (path : String) (opts : ApiOptions) (req : Request)
    (h : ApiSends st path opts req) : req = apiRequest st path opts := by
  by_contra hne
  have h1 := h (fun r => if r = apiRequest st path opts then .ok ⟨200, none⟩
    else .error ⟨"TypeError", "Failed to fetch"⟩)
  rw [api_eq_fetch] at h1
  simp [hne, Except.map] at h1

theorem apiRequest_headers (st : Storage) (path : String) (opts : ApiOptions) :
    (apiRequest st path opts).headers =
      ("Content-Type", "application/json") ::
        (if opts.auth = true ∧ token st ≠ "" then [("Authorization", "Bearer " ++ token st)]
          else []) := by
  cases h : opts.auth
  · simp [apiRequest, spreadInto, h]
  · by_cases ht : token st = ""
    · simp [apiRequest, spreadInto, authHeader, h, ht]
    · simp [apiRequest, spreadInto, authHeader, h, ht, setProp]

/-! ## The session store and the request gateway -/

/-- C4: `authHeader()` is the empty mapping iff `isAuthed()` is false, and
otherwise the single entry `Authorization: Bearer <token()>`; `isAuthed()` is
true iff `token()` is a non-empty string; `token()` is the stored `jwt` value,
or the empty string when none is stored. -/
theorem authHeader_spec (st : Storage) :
    (authHeader st = [] ↔ isAuthed st = false) ∧
    (isAuthed st = true → authHeader st = [("Authorization", "Bearer " ++ token st)]) ∧
    (isAuthed st = true ↔ token st ≠ "") ∧
    (∀ t, getItem "jwt" st = some t → token st = t) ∧
    (getItem "jwt" st = none → token st = "") := by
  refine ⟨?_, ?_, ?_, ?_, ?_⟩
  · by_cases h : token st = "" <;> simp [authHeader, isAuthed, h]
  · intro h
    have h1 : token st ≠ "" := by simpa [isAuthed] using h
    simp [authHeader, h1]
  · simp [isAuthed]
  · intro t ht
    simp [token_eq_getD, ht]
  · intro h
    simp [token_eq_getD, h]

/-- Witness of C4 on a storage that holds the token `abc` beside another key. -/
theorem authHeader_spec_witness :
    isAuthed [("theme", "dark"), ("jwt", "abc")] = true ∧
    authHeader [("theme", "dark"), ("jwt", "abc")] = [("Authorization", "Bearer abc")] ∧
    authHeader [("theme", "dark")] = [] :=
  ⟨by decide, (authHeader_spec [("theme", "dark"), ("jwt", "abc")]).2.1 (by decide),
    (authHeader_spec [("theme", "dark")]).1.2 (by decide)⟩

/-- C3: for every storage state, path, method and body, the request `api`
hands to `fetch` carries exactly the headers `Content-Type: application/json`,
always, plus `Authorization: Bearer <token>` iff `auth` is true and a
non-empty token is stored: none with no token stored, `Bearer abc` once `abc`
is stored, and none when `auth` is false, whatever is stored. -/
theorem api_headers (st : Storage) (path method : String) (body : JsVal) (auth : Bool) :
    (∀ fetch : Fetch,
      api fetch st path ⟨method, body, auth⟩ =
        Except.map apiResult
          (fetch ⟨API_BASE ++ path, method,
            ("Content-Type", "application/json") ::
              (if auth = true ∧ token st ≠ "" then [("Authorization", "Bearer " ++ token st)]
                else []),
            if truthy body then jsonStringify body else none⟩)) ∧
    (∀ req, ApiSends st path ⟨method, body, auth⟩ req →
      req.headers =
        ("Content-Type", "application/json") ::
          (if auth = true ∧ token st ≠ "" then [("Authorization", "Bearer " ++ token st)]
            else [])) ∧
    (getItem "jwt" st = none →
      ∀ req, ApiSends st path ⟨method, body, true⟩ req →
        req.headers = [("Content-Type", "application/json")]) ∧
    (∀ req, ApiSends (setItem "jwt" "abc" st) path ⟨method, body, true⟩ req →
      req.headers =
        [("Content-Type", "application/json"), ("Authorization", "Bearer abc")]) ∧
    (∀ req, ApiSends st path ⟨method, body, false⟩ req →
      req.headers = [("Content-Type", "application/json")]) := by
  have api_eq : ∀ (st' : Storage) (opts : ApiOptions) (fetch : Fetch),
      api fetch st' path opts = Except.map apiResult (fetch (apiRequest st' path opts)) := by
    intro st' opts fetch
    unfold api
    cases fetch (apiRequest st' path opts) <;> rfl
  have sends_unique : ∀ (st' : Storage) (opts : ApiOptions) (req : Request),
      ApiSends st' path opts req → req = apiRequest st' path opts := by
    intro st' opts req h
    by_contra hne
    have h1 := h (fun r => if r = apiRequest st' path opts then .ok ⟨200, none⟩
      else .error ⟨"TypeError", "Failed to fetch"⟩)
    rw [api_eq] at h1
    simp [hne, Except.map] at h1
  refine ⟨?_, ?_, ?_, ?_, ?_⟩
  · intro fetch
    rw [api_eq]
    have h : apiRequest st path ⟨method, body, auth⟩ =
        ⟨API_BASE ++ path, method,
          ("Content-Type", "application/json") ::
            (if auth = true ∧ token st ≠ "" then [("Authorization", "Bearer " ++ token st)]
              else []),
          if truthy body then jsonStringify body else none⟩ := by
      have hh := apiRequest_headers st path ⟨method, body, auth⟩
      simp only [apiRequest] at hh ⊢
      rw [hh]
    rw [h]
  · intro req h
    rw [sends_unique _ _ _ h, apiRequest_headers]
  · intro hnone req h
    rw [sends_unique _ _ _ h, apiRequest_headers]
    simp [token_eq_getD, hnone]
  · intro req h
    rw [sends_unique _ _ _ h, apiRequest_headers]
    have ht : token (setItem "jwt" "abc" st) = "abc" := by
      simp [token_eq_getD, getItem_setItem_self]
    simp [ht]
  · intro req h
    rw [sends_unique _ _ _ h, apiRequest_headers]
    simp

/-- Witness of C3: with no token stored, a call with `auth` true on the echo
server is answered as a request with the content type alone is. -/
theorem api_headers_witness :
    getItem "jwt" [("theme", "dark")] = none ∧
    (∀ req, ApiSends [("theme", "dark")] "/item/read/" ⟨"GET", .undefined, true⟩ req →
      req.headers = [("Content-Type", "application/json")]) ∧
    api echoServer [("theme", "dark")] "/item/read/" ⟨"GET", .undefined, true⟩ =
      Except.map apiResult
        (echoServer ⟨API_BASE ++ "/item/read/", "GET",
          ("Content-Type", "application/json") ::
            (if true = true ∧ token [("theme", "dark")] ≠ "" then
              [("Authorization", "Bearer " ++ token [("theme", "dark")])]
            else []),
          if truthy JsVal.undefined then jsonStringify JsVal.undefined else none⟩) :=
  ⟨by decide,
    (api_headers [("theme", "dark")] "/item/read/" "GET" .undefined true).2.2.1 (by decide),
    (api_headers [("theme", "dark")] "/item/read/" "GET" .undefined true).1 echoServer⟩

/-- C2: for every response that `api` receives, the result has the response's
status, `ok` is true iff that status is in `200..299`, and `data` is the parsed
body when the body parses and `null` when it does not; `ok` does not depend on
the body. -/
theorem api_result_of_response (fetch : Fetch) (st : Storage) (path : String)
    (opts : ApiOptions) (resp : Response)
    (h : fetch (apiRequest st path opts) = .ok resp) :
    ∃ r : ApiResult, api fetch st path opts = .ok r ∧
      r.status = resp.status ∧
      (r.ok = true ↔ 200 ≤ resp.status ∧ resp.status ≤ 299) ∧
      (∀ v, resp.json = some v → r.data = v) ∧
      (resp.json = none → r.data = JsVal.null) := by
  refine ⟨apiResult resp, ?_, rfl, ?_, ?_, ?_⟩
  · simp [api, h]
  · simp [apiResult, Response.ok]
  · intro v hv
    simp [apiResult, hv]
  · intro hv
    simp [apiResult, hv]

/-- Witness of C2: a 201 whose body is an object with `id` 7 and `name` x, and
a 401 whose body does not parse. -/
theorem api_result_of_response_witness :
    (∃ r : ApiResult,
      api (fun _ => .ok ⟨201, some (.obj [("id", .num JsNum.seven), ("name", .str "x")])⟩) []
          "/item/create/" ⟨"POST", .obj [("name", .str "x")], true⟩ = .ok r ∧
        r.status = 201 ∧
        (r.ok = true ↔ 200 ≤ 201 ∧ 201 ≤ 299) ∧
        (∀ v, some (JsVal.obj [("id", .num JsNum.seven), ("name", .str "x")]) = some v → r.data = v) ∧
        (some (JsVal.obj [("id", .num JsNum.seven), ("name", .str "x")]) = none → r.data = JsVal.null)) ∧
    (∃ r : ApiResult,
      api (fun _ => .ok ⟨401, none⟩) [] "/item/read/" ⟨"GET", .undefined, true⟩ = .ok r ∧
        r.status = 401 ∧
        (r.ok = true ↔ 200 ≤ 401 ∧ 401 ≤ 299) ∧
        (∀ v, (none : Option JsVal) = some v → r.data = v) ∧
        ((none : Option JsVal) = none → r.data = JsVal.null)) :=
  ⟨api_result_of_response (fun _ => .ok ⟨201, some (.obj [("id", .num JsNum.seven), ("name", .str "x")])⟩)
      [] "/item/create/" ⟨"POST", .obj [("name", .str "x")], true⟩
      ⟨201, some (.obj [("id", .num JsNum.seven), ("name", .str "x")])⟩ rfl,
    api_result_of_response (fun _ => .ok ⟨401, none⟩) [] "/item/read/"
      ⟨"GET", .undefined, true⟩ ⟨401, none⟩ rfl⟩

/-- C1 as stated fails: when `fetch` rejects because no response was received,
`api` rejects with that error and resolves to no result object. -/
theorem api_transport_failure_rejects :
    api (fun _ => .error ⟨"TypeError", "Failed to fetch"⟩) [] "/item/read/"
        ⟨"GET", .undefined, true⟩ = .error ⟨"TypeError", "Failed to fetch"⟩ ∧
    ¬ ∃ r : ApiResult,
      api (fun _ => .error ⟨"TypeError", "Failed to fetch"⟩) [] "/item/read/"
        ⟨"GET", .undefined, true⟩ = .ok r ∧ r.ok = false ∧ r.status = 0 := by
  constructor
  · rfl
  · rintro ⟨r, hr, -⟩
    simp [api] at hr

/-- C1, amended: whenever the underlying `fetch` delivers a response, whatever
its status and body, `api` resolves to a result object with that status; when
the `fetch` rejects because no response was received, `api` rejects with the
same error and produces no result object. -/
theorem api_settles_as_fetch (fetch : Fetch) (st : Storage) (path : String)
    (opts : ApiOptions) :
    (∀ resp, fetch (apiRequest st path opts) = .ok resp →
      ∃ r : ApiResult, api fetch st path opts = .ok r ∧ r.status = resp.status ∧
        r.ok = resp.ok) ∧
    (∀ e, fetch (apiRequest st path opts) = .error e →
      api fetch st path opts = .error e ∧
        ¬ ∃ r : ApiResult, api fetch st path opts = .ok r) := by
  constructor
  · intro resp h
    exact ⟨apiResult resp, by simp [api, h], rfl, rfl⟩
  · intro e h
    have h1 : api fetch st path opts = .error e := by simp [api, h]
    refine ⟨h1, ?_⟩
    rintro ⟨r, hr⟩
    rw [h1] at hr
    cases hr

/-- Witness of the amended C1: a 500 without a body resolves, a refused
connection rejects. -/
theorem api_settles_as_fetch_witness :
    (∃ r : ApiResult,
      api (fun _ => .ok ⟨500, none⟩) [] "/user/login/" ⟨"POST", .obj [], false⟩ = .ok r ∧
        r.status = 500 ∧ r.ok = false) ∧
    api (fun _ => .error ⟨"TypeError", "Failed to fetch"⟩) [("jwt", "abc")] "/item/read/"
        ⟨"GET", .undefined, true⟩ = .error ⟨"TypeError", "Failed to fetch"⟩ :=
  ⟨(api_settles_as_fetch (fun _ => .ok ⟨500, none⟩) [] "/user/login/"
      ⟨"POST", .obj [], false⟩).1 ⟨500, none⟩ rfl,
    ((api_settles_as_fetch (fun _ => .error ⟨"TypeError", "Failed to fetch"⟩)
      [("jwt", "abc")] "/item/read/" ⟨"GET", .undefined, true⟩).2
        ⟨"TypeError", "Failed to fetch"⟩ rfl).1⟩

/-- C5 as stated fails: a body that is supplied but falsy (`0`, the empty
string, `false`, `null`) has a JSON text, and `api` hands `fetch` a request
without a body: the echo server answers 204. -/
theorem api_falsy_body_not_sent :
    (jsonStringify (.num JsNum.zero) = some "0" ∧
      (api echoServer [] "/item/create/" ⟨"POST", .num JsNum.zero, true⟩).toOption.map
        (fun r => r.status) = some 204 ∧
      ¬ ∃ req, ApiSends [] "/item/create/" ⟨"POST", .num JsNum.zero, true⟩ req ∧
        req.body = some "0") ∧
    (jsonStringify (.str "") = some "\"\"" ∧
      (api echoServer [] "/item/create/" ⟨"POST", .str "", true⟩).toOption.map
        (fun r => r.status) = some 204 ∧
      ¬ ∃ req, ApiSends [] "/item/create/" ⟨"POST", .str "", true⟩ req ∧
        req.body = some "\"\"") ∧
    (jsonStringify (.bool false) = some "false" ∧
      (api echoServer [] "/item/create/" ⟨"POST", .bool false, true⟩).toOption.map
        (fun r => r.status) = some 204 ∧
      ¬ ∃ req, ApiSends [] "/item/create/" ⟨"POST", .bool false, true⟩ req ∧
        req.body = some "false") ∧
    (jsonStringify .null = some "null" ∧
      (api echoServer [] "/item/create/" ⟨"POST", .null, true⟩).toOption.map
        (fun r => r.status) = some 204 ∧
      ¬ ∃ req, ApiSends [] "/item/create/" ⟨"POST", .null, true⟩ req ∧
        req.body = some "null") := by
  refine ⟨⟨by decide, by decide, ?_⟩, ⟨by decide, by decide, ?_⟩,
    ⟨by decide, by decide, ?_⟩, ⟨by decide, by decide, ?_⟩⟩ <;>
  · rintro ⟨req, h, hb⟩
    rw [apiSends_unique _ _ _ _ h] at hb
    revert hb
    decide

/-- C5, amended: when `body` is truthy (an object, an array, a non-empty
string, a non-zero number, `true`) the request `api` hands to `fetch` has the
body `JSON.stringify(body)`, which is a string; when `body` is absent or falsy
(`undefined`, `null`, `false`, `0`, the empty string) that request has no body
at all. -/
theorem api_body (st : Storage) (path method : String) (body : JsVal) (auth : Bool) :
    (truthy body = true →
      ∃ text, jsonStringify body = some text ∧
        (∀ fetch : Fetch,
          api fetch st path ⟨method, body, auth⟩ =
            Except.map apiResult
              (fetch ⟨API_BASE ++ path, method,
                ("Content-Type", "application/json") ::
                  (if auth = true ∧ token st ≠ "" then
                    [("Authorization", "Bearer " ++ token st)]
                  else []),
                some text⟩)) ∧
        ∀ req, ApiSends st path ⟨method, body, auth⟩ req → req.body = some text) ∧
    (truthy body = false →
      (∀ fetch : Fetch,
        api fetch st path ⟨method, body, auth⟩ =
          Except.map apiResult
            (fetch ⟨API_BASE ++ path, method,
              ("Content-Type", "application/json") ::
                (if auth = true ∧ token st ≠ "" then
                  [("Authorization", "Bearer " ++ token st)]
                else []),
              none⟩)) ∧
      ∀ req, ApiSends st path ⟨method, body, auth⟩ req → req.body = none) := by
  have api_eq : ∀ (st' : Storage) (opts : ApiOptions) (fetch : Fetch),
      api fetch st' path opts = Except.map apiResult (fetch (apiRequest st' path opts)) := by
    intro st' opts fetch
    unfold api
    cases fetch (apiRequest st' path opts) <;> rfl
  have sends_unique : ∀ (st' : Storage) (opts : ApiOptions) (req : Request),
      ApiSends st' path opts req → req = apiRequest st' path opts := by
    intro st' opts req h
    by_contra hne
    have h1 := h (fun r => if r = apiRequest st' path opts then .ok ⟨200, none⟩
      else .error ⟨"TypeError", "Failed to fetch"⟩)
    rw [api_eq] at h1
    simp [hne, Except.map] at h1
  have hreq : ∀ b : Option String,
      (if truthy body then jsonStringify body else none) = b →
      apiRequest st path ⟨method, body, auth⟩ =
        ⟨API_BASE ++ path, method,
          ("Content-Type", "application/json") ::
            (if auth = true ∧ token st ≠ "" then [("Authorization", "Bearer " ++ token st)]
              else []),
          b⟩ := by
    intro b hb
    have hh := apiRequest_headers st path ⟨method, body, auth⟩
    simp only [apiRequest] at hh ⊢
    rw [hh, hb]
  constructor
  · intro h
    have hs : ∃ text, jsonStringify body = some text := by
      cases body <;> simp [jsonStringify, truthy] at h ⊢
    obtain ⟨text, ht⟩ := hs
    have hr := hreq (some text) (by simp [h, ht])
    refine ⟨text, ht, ?_, ?_⟩
    · intro fetch
      rw [api_eq, hr]
    · intro req hsend
      rw [sends_unique _ _ _ hsend, hr]
  · intro h
    have hr := hreq none (by simp [h])
    constructor
    · intro fetch
      rw [api_eq, hr]
    · intro req hsend
      rw [sends_unique _ _ _ hsend, hr]

/-- Witness of the amended C5: the echo server receives the JSON text of a
login body, and nothing from a call without a body. -/
theorem api_body_witness :
    (truthy (.obj [("username", .str "u"), ("password", .str "p")]) = true ∧
      ∃ text,
        jsonStringify (.obj [("username", .str "u"), ("password", .str "p")]) = some text ∧
        (∀ fetch : Fetch,
          api fetch [] "/user/login/"
              ⟨"POST", .obj [("username", .str "u"), ("password", .str "p")], false⟩ =
            Except.map apiResult
              (fetch ⟨API_BASE ++ "/user/login/", "POST",
                ("Content-Type", "application/json") ::
                  (if false = true ∧ token [] ≠ "" then
                    [("Authorization", "Bearer " ++ token [])]
                  else []),
                some text⟩)) ∧
        ∀ req,
          ApiSends [] "/user/login/"
              ⟨"POST", .obj [("username", .str "u"), ("password", .str "p")], false⟩ req →
            req.body = some text) ∧
    (truthy JsVal.undefined = false ∧
      ∀ req, ApiSends [] "/item/read/" ⟨"GET", .undefined, true⟩ req → req.body = none) :=
  ⟨⟨rfl,
      (api_body [] "/user/login/" "POST"
        (.obj [("username", .str "u"), ("password", .str "p")]) false).1 rfl⟩,
    ⟨rfl, ((api_body [] "/item/read/" "GET" .undefined true).2 rfl).2⟩⟩

/-- C7: after `localStorage.setItem('jwt', x)` with a non-empty string `x`,
on any prior storage, `token()` is exactly `x` and `isAuthed()` is true; a
token stored before is overwritten. -/
theorem token_roundtrip (st : Storage) (x : String) (hx : x ≠ "") :
    token (setItem "jwt" x st) = x ∧
    isAuthed (setItem "jwt" x st) = true ∧
    getItem "jwt" (setItem "jwt" x st) = some x := by
  have h : token (setItem "jwt" x st) = x := by
    simp [token_eq_getD, getItem_setItem_self]
  exact ⟨h, by simp [isAuthed, h, hx], getItem_setItem_self "jwt" x st⟩

/-- Witness of C7: storing `new` over an older token. -/
theorem token_roundtrip_witness :
    "new" ≠ "" ∧
    token (setItem "jwt" "new" [("theme", "dark"), ("jwt", "old")]) = "new" ∧
    isAuthed (setItem "jwt" "new" [("theme", "dark"), ("jwt", "old")]) = true ∧
    getItem "jwt" (setItem "jwt" "new" [("theme", "dark"), ("jwt", "old")]) = some "new" :=
  ⟨by decide, token_roundtrip [("theme", "dark"), ("jwt", "old")] "new" (by decide)⟩

/-- C10: on every storage, `localStorage.removeItem('jwt')` done twice leaves
what doing it once leaves; afterwards `token()` is the empty string and
`isAuthed()` is false; keys other than `jwt` keep their values; both logout
handlers do exactly this removal and no error is raised, token or no token. -/
theorem logout_removal_idempotent (w : World) :
    removeItem "jwt" (removeItem "jwt" w.storage) = removeItem "jwt" w.storage ∧
    token (removeItem "jwt" w.storage) = "" ∧
    isAuthed (removeItem "jwt" w.storage) = false ∧
    (∀ k, k ≠ "jwt" → getItem k (removeItem "jwt" w.storage) = getItem k w.storage) ∧
    (navLogoutClick w).storage = removeItem "jwt" w.storage ∧
    (floatingLogoutClick w).storage = removeItem "jwt" w.storage ∧
    (navLogoutClick (navLogoutClick w)).storage = (navLogoutClick w).storage ∧
    (floatingLogoutClick (floatingLogoutClick w)).storage = (floatingLogoutClick w).storage ∧
    (navLogoutClick w).unhandled = w.unhandled ∧
    (floatingLogoutClick w).unhandled = w.unhandled := by
  have ht : token (removeItem "jwt" w.storage) = "" := by
    simp [token_eq_getD, getItem_removeItem_self]
  refine ⟨removeItem_removeItem _ _, ht, by simp [isAuthed, ht],
    fun k hk => getItem_removeItem_other "jwt" k w.storage hk,
    (navLogoutClick_storage w).1, (floatingLogoutClick_storage w).1, ?_, ?_,
    (navLogoutClick_storage w).2.1, (floatingLogoutClick_storage w).2.1⟩
  · rw [(navLogoutClick_storage _).1, (navLogoutClick_storage w).1, removeItem_removeItem]
  · rw [(floatingLogoutClick_storage _).1, (floatingLogoutClick_storage w).1,
      removeItem_removeItem]

/-- Witness of C10: the key `theme` survives the removal of the token. -/
theorem logout_removal_idempotent_witness :
    "theme" ≠ "jwt" ∧
    getItem "theme" (removeItem "jwt" [("jwt", "abc"), ("theme", "dark")]) =
      getItem "theme" [("jwt", "abc"), ("theme", "dark")] :=
  ⟨by decide,
    (logout_removal_idempotent
      ⟨[("jwt", "abc"), ("theme", "dark")], [], none, none, "items.html", [], []⟩).2.2.2.1
      "theme" (by decide)⟩

/-! ## The page handlers -/

theorem loginClick_missing_field (net : Net) (w : World) (u p : Elem)
    (hu : getElementById "login-username" w = some u)
    (hp : getElementById "login-password" w = some p)
    (h : jsTrim u.value = "" ∨ p.value = "") :
    loginClick net w =
      setStatus "login-status" "Username and password required." false
        (clearStatus "login-status" w) := by
  have hu1 := getElementById_clearStatus_other "login-status" "login-username" w (by decide)
  have hp1 := getElementById_clearStatus_other "login-status" "login-password" w (by decide)
  simp [loginClick, hu1, hp1, hu, hp, h]

theorem registerClick_missing_field (net : Net) (w : World) (u m p : Elem)
    (hu : getElementById "reg-username" w = some u)
    (hm : getElementById "reg-email" w = some m)
    (hp : getElementById "reg-password" w = some p)
    (h : jsTrim u.value = "" ∨ jsTrim m.value = "" ∨ p.value = "") :
    registerClick net w =
      setStatus "register-status" "All fields are required." false
        (clearStatus "register-status" w) := by
  have hu1 := getElementById_clearStatus_other "register-status" "reg-username" w (by decide)
  have hm1 := getElementById_clearStatus_other "register-status" "reg-email" w (by decide)
  have hp1 := getElementById_clearStatus_other "register-status" "reg-password" w (by decide)
  simp [registerClick, hu1, hm1, hp1, hu, hm, hp, h]

theorem createItemClick_missing_field (net : Net) (hasMatch : Matcher) (w : World)
    (n d : Elem)
    (hn : getElementById "item-name" w = some n)
    (hd : getElementById "item-desc" w = some d)
    (h : jsTrim n.value = "") :
    createItemClick net hasMatch w =
      setStatus "items-status" "Name is required." false (clearStatus "items-status" w) := by
  have hn1 := getElementById_clearStatus_other "items-status" "item-name" w (by decide)
  have hd1 := getElementById_clearStatus_other "items-status" "item-desc" w (by decide)
  simp [createItemClick, hn1, hd1, hn, hd, h]

theorem missing_field_outcome (id msg : String) (w : World) :
    (setStatus id msg false (clearStatus id w)).sent = w.sent ∧
    (setStatus id msg false (clearStatus id w)).storage = w.storage ∧
    ((getElementById id w).isSome = true →
      statusLine id (setStatus id msg false (clearStatus id w)) = some ("status err", msg)) := by
  refine ⟨?_, ?_, ?_⟩
  · rw [(setStatus_fields _ _ _ _).2.1, (clearStatus_fields _ _).2.1]
  · rw [(setStatus_fields _ _ _ _).1, (clearStatus_fields _ _).1]
  · intro h
    rw [statusLine_setStatus _ _ _ _ (by rw [isSome_clearStatus]; exact h)]
    simp

/-- C8: a missing required field never reaches the network.  When the login
form has an empty trimmed username or an empty password, the register form an
empty trimmed username or email or an empty password, or the create-item form
an empty trimmed name, the handler issues no request, leaves storage as it
was, and sets an error status on the page's status line. -/
theorem precondition_failures_stay_local (net : Net) (hasMatch : Matcher) (w : World) :
    (∀ u p : Elem,
      getElementById "login-username" w = some u →
      getElementById "login-password" w = some p →
      (jsTrim u.value = "" ∨ p.value = "") →
        (loginClick net w).sent = w.sent ∧
        (loginClick net w).storage = w.storage ∧
        ((getElementById "login-status" w).isSome = true →
          statusLine "login-status" (loginClick net w) =
            some ("status err", "Username and password required."))) ∧
    (∀ u m p : Elem,
      getElementById "reg-username" w = some u →
      getElementById "reg-email" w = some m →
      getElementById "reg-password" w = some p →
      (jsTrim u.value = "" ∨ jsTrim m.value = "" ∨ p.value = "") →
        (registerClick net w).sent = w.sent ∧
        (registerClick net w).storage = w.storage ∧
        ((getElementById "register-status" w).isSome = true →
          statusLine "register-status" (registerClick net w) =
            some ("status err", "All fields are required."))) ∧
    (∀ n d : Elem,
      getElementById "item-name" w = some n →
      getElementById "item-desc" w = some d →
      jsTrim n.value = "" →
        (createItemClick net hasMatch w).sent = w.sent ∧
        (createItemClick net hasMatch w).storage = w.storage ∧
        ((getElementById "items-status" w).isSome = true →
          statusLine "items-status" (createItemClick net hasMatch w) =
            some ("status err", "Name is required."))) := by
  refine ⟨?_, ?_, ?_⟩
  · intro u p hu hp h
    rw [loginClick_missing_field net w u p hu hp h]
    exact missing_field_outcome _ _ w
  · intro u m p hu hm hp h
    rw [registerClick_missing_field net w u m p hu hm hp h]
    exact missing_field_outcome _ _ w
  · intro n d hn hd h
    rw [createItemClick_missing_field net hasMatch w n d hn hd h]
    exact missing_field_outcome _ _ w

/-- Witness of C8: a click on that page with a username of blanks. -/
theorem precondition_failures_stay_local_witness :
    (jsTrim "  \t " = "" ∨ "secret" = "") ∧
    (loginClick (fun _ _ => .ok ⟨200, none⟩) blankLoginPage).sent = [] ∧
    (loginClick (fun _ _ => .ok ⟨200, none⟩) blankLoginPage).storage = [("jwt", "old")] ∧
    ((getElementById "login-status" blankLoginPage).isSome = true →
      statusLine "login-status" (loginClick (fun _ _ => .ok ⟨200, none⟩) blankLoginPage) =
        some ("status err", "Username and password required.")) :=
  ⟨by decide,
    (precondition_failures_stay_local (fun _ _ => .ok ⟨200, none⟩) (fun _ _ => true)
      blankLoginPage).1
      ⟨"", "", "  \t ", ""⟩ ⟨"", "", "secret", ""⟩ rfl rfl (by decide)⟩

theorem loginClick_no_token (net : Net) (w : World) (u p : Elem) (resp : Response)
    (hu : getElementById "login-username" w = some u)
    (hp : getElementById "login-password" w = some p)
    (hne : jsTrim u.value ≠ "") (hpw : p.value ≠ "")
    (hresp : net w.sent (apiRequest w.storage ENDPOINTS_login
      ⟨"POST", .obj [("username", .str (jsTrim u.value)), ("password", .str p.value)], false⟩) =
        .ok resp)
    (hok : resp.ok = true)
    (h1 : truthy (optGet (apiResult resp).data "access_token") = false)
    (h2 : truthy (optGet (apiResult resp).data "token") = false) :
    loginClick net w =
      setStatus "login-status" "No token returned by API. Check endpoint mapping." false
        (apiCall net ENDPOINTS_login
          ⟨"POST", .obj [("username", .str (jsTrim u.value)), ("password", .str p.value)], false⟩
          (clearStatus "login-status" w)).1 := by
  have hu1 := getElementById_clearStatus_other "login-status" "login-username" w (by decide)
  have hp1 := getElementById_clearStatus_other "login-status" "login-password" w (by decide)
  have hf := clearStatus_fields "login-status" w
  have hjwt : truthy (jsOr (jsOr (optGet (apiResult resp).data "access_token")
      (optGet (apiResult resp).data "token")) .null) = false := by
    simp only [jsOr, h1, h2, Bool.false_eq_true, if_false]
    rfl
  have hapi : api (net w.sent) w.storage ENDPOINTS_login
      ⟨"POST", .obj [("username", .str (jsTrim u.value)), ("password", .str p.value)], false⟩ =
        .ok (apiResult resp) := by
    simp [api, hresp]
  have hrok : (apiResult resp).ok = true := hok
  simp [loginClick, hu1, hp1, hu, hp, hne, hpw, apiCall, hf.1, hf.2.1, hapi, hrok, hjwt]

theorem statusLine_after_call (net : Net) (path id msg : String) (opts : ApiOptions)
    (ok : Bool) (w : World) (h : (getElementById id w).isSome = true) :
    statusLine id (setStatus id msg ok (apiCall net path opts (clearStatus id w)).1) =
      some ("status " ++ (if ok then "ok" else "err"), msg) := by
  apply statusLine_setStatus
  have h1 : getElementById id (apiCall net path opts (clearStatus id w)).1 =
      getElementById id (clearStatus id w) := rfl
  rw [h1, isSome_clearStatus]
  exact h

theorem loginClick_no_token_status (net : Net) (w : World) (u p : Elem) (resp : Response)
    (hu : getElementById "login-username" w = some u)
    (hp : getElementById "login-password" w = some p)
    (hne : jsTrim u.value ≠ "") (hpw : p.value ≠ "")
    (hresp : net w.sent (apiRequest w.storage ENDPOINTS_login
      ⟨"POST", .obj [("username", .str (jsTrim u.value)), ("password", .str p.value)], false⟩) =
        .ok resp)
    (hok : resp.ok = true)
    (h1 : truthy (optGet (apiResult resp).data "access_token") = false)
    (h2 : truthy (optGet (apiResult resp).data "token") = false) :
    (getElementById "login-status" w).isSome = true →
      statusLine "login-status" (loginClick net w) =
        some ("status err", "No token returned by API. Check endpoint mapping.") := by
  intro h
  rw [loginClick_no_token net w u p resp hu hp hne hpw hresp hok h1 h2,
    statusLine_after_call net _ _ _ _ _ w h]
  simp

/-- C6: when the login response is ok and its payload has neither a usable
`access_token` nor a usable `token` (a `null` payload included), the login
click handler leaves storage unchanged, sets the error status
"No token returned by API. Check endpoint mapping.", does not navigate, and
does not throw. -/
theorem login_without_token (net : Net) (w : World) (u p : Elem) (resp : Response)
    (hu : getElementById "login-username" w = some u)
    (hp : getElementById "login-password" w = some p)
    (hne : jsTrim u.value ≠ "") (hpw : p.value ≠ "")
    (hresp : net w.sent (apiRequest w.storage ENDPOINTS_login
      ⟨"POST", .obj [("username", .str (jsTrim u.value)), ("password", .str p.value)], false⟩) =
        .ok resp)
    (hok : resp.ok = true)
    (h1 : truthy (optGet (apiResult resp).data "access_token") = false)
    (h2 : truthy (optGet (apiResult resp).data "token") = false) :
    (loginClick net w).storage = w.storage ∧
    getItem "jwt" (loginClick net w).storage = getItem "jwt" w.storage ∧
    ((getElementById "login-status" w).isSome = true →
      statusLine "login-status" (loginClick net w) =
        some ("status err", "No token returned by API. Check endpoint mapping.")) ∧
    (loginClick net w).href = w.href ∧
    (loginClick net w).unhandled = w.unhandled := by
  rw [loginClick_no_token net w u p resp hu hp hne hpw hresp hok h1 h2]
  have hf := clearStatus_fields "login-status" w
  have hst : (setStatus "login-status" "No token returned by API. Check endpoint mapping."
      false (apiCall net ENDPOINTS_login
        ⟨"POST", .obj [("username", .str (jsTrim u.value)), ("password", .str p.value)], false⟩
        (clearStatus "login-status" w)).1).storage = w.storage := by
    rw [(setStatus_fields _ _ _ _).1]
    exact hf.1
  refine ⟨hst, by rw [hst], ?_, ?_, ?_⟩
  · intro h
    rw [statusLine_after_call net _ _ _ _ _ w h]
    simp
  · rw [(setStatus_fields _ _ _ _).2.2.1]
    exact hf.2.2.1
  · rw [(setStatus_fields _ _ _ _).2.2.2.1]
    exact hf.2.2.2.1

/-- Witness of C6: a 200 whose payload names the user and no token. -/
theorem login_without_token_witness :
    (loginClick (fun _ _ => .ok ⟨200, some (.obj [("user", .str "ann")])⟩)
      filledLoginPage).storage = [] ∧
    getItem "jwt" (loginClick (fun _ _ => .ok ⟨200, some (.obj [("user", .str "ann")])⟩)
      filledLoginPage).storage = none ∧
    ((getElementById "login-status" filledLoginPage).isSome = true →
      statusLine "login-status"
        (loginClick (fun _ _ => .ok ⟨200, some (.obj [("user", .str "ann")])⟩)
          filledLoginPage) =
        some ("status err", "No token returned by API. Check endpoint mapping.")) ∧
    (loginClick (fun _ _ => .ok ⟨200, some (.obj [("user", .str "ann")])⟩)
      filledLoginPage).href = "login.html" ∧
    (loginClick (fun _ _ => .ok ⟨200, some (.obj [("user", .str "ann")])⟩)
      filledLoginPage).unhandled = [] :=
  login_without_token (fun _ _ => .ok ⟨200, some (.obj [("user", .str "ann")])⟩)
    filledLoginPage ⟨"", "", " ann ", ""⟩ ⟨"", "", "secret", ""⟩
    ⟨200, some (.obj [("user", .str "ann")])⟩ rfl rfl (by decide) (by decide) rfl rfl
    (by decide) (by decide)

theorem errorText_of_shown (status : Nat) (data : JsVal) (fallback shown : String)
    (h : ShowsDetail data fallback shown) :
    errorText status data fallback =
      .ok ("Error (" ++ toString status ++ "): " ++ shown) := by
  rcases h with ⟨hf, hs⟩ | ⟨ht, hs⟩
  · subst hs
    simp only [errorText, jsOr, hf, Bool.false_eq_true, if_false, jsToString]
  · simp only [errorText, jsOr, ht, if_true, hs]

theorem loginClick_error (net : Net) (w : World) (u p : Elem) (resp : Response)
    (msg : String)
    (hu : getElementById "login-username" w = some u)
    (hp : getElementById "login-password" w = some p)
    (hne : jsTrim u.value ≠ "") (hpw : p.value ≠ "")
    (hresp : net w.sent (apiRequest w.storage ENDPOINTS_login
      ⟨"POST", .obj [("username", .str (jsTrim u.value)), ("password", .str p.value)], false⟩) =
        .ok resp)
    (hok : resp.ok = false)
    (hmsg : errorText resp.status (apiResult resp).data "Login failed." = .ok msg) :
    loginClick net w =
      setStatus "login-status" msg false
        (apiCall net ENDPOINTS_login
          ⟨"POST", .obj [("username", .str (jsTrim u.value)), ("password", .str p.value)], false⟩
          (clearStatus "login-status" w)).1 := by
  have hu1 := getElementById_clearStatus_other "login-status" "login-username" w (by decide)
  have hp1 := getElementById_clearStatus_other "login-status" "login-password" w (by decide)
  have hf := clearStatus_fields "login-status" w
  have hapi : api (net w.sent) w.storage ENDPOINTS_login
      ⟨"POST", .obj [("username", .str (jsTrim u.value)), ("password", .str p.value)], false⟩ =
        .ok (apiResult resp) := by
    simp [api, hresp]
  have hrok : (apiResult resp).ok = false := hok
  have hmsg1 : errorText (apiResult resp).status (apiResult resp).data "Login failed." =
      .ok msg := hmsg
  simp [loginClick, hu1, hp1, hu, hp, hne, hpw, apiCall, hf.1, hf.2.1, hapi, hrok, hmsg1]

theorem loginClick_success (net : Net) (w : World) (u p : Elem) (resp : Response)
    (stored : String)
    (hu : getElementById "login-username" w = some u)
    (hp : getElementById "login-password" w = some p)
    (hne : jsTrim u.value ≠ "") (hpw : p.value ≠ "")
    (hresp : net w.sent (apiRequest w.storage ENDPOINTS_login
      ⟨"POST", .obj [("username", .str (jsTrim u.value)), ("password", .str p.value)], false⟩) =
        .ok resp)
    (hok : resp.ok = true)
    (hjwt : truthy (jsOr (optGet (apiResult resp).data "access_token")
      (optGet (apiResult resp).data "token")) = true)
    (hstr : jsToString (jsOr (optGet (apiResult resp).data "access_token")
      (optGet (apiResult resp).data "token")) = .ok stored)
    (hs : (getElementById "login-status" w).isSome = true) :
    statusLine "login-status" (loginClick net w) =
      some ("status ok", "Logged in! Redirecting…") ∧
    (loginClick net w).storage = setItem "jwt" stored w.storage ∧
    (loginClick net w).href = "items.html" := by
  have hu1 := getElementById_clearStatus_other "login-status" "login-username" w (by decide)
  have hp1 := getElementById_clearStatus_other "login-status" "login-password" w (by decide)
  have hf := clearStatus_fields "login-status" w
  have hapi : api (net w.sent) w.storage ENDPOINTS_login
      ⟨"POST", .obj [("username", .str (jsTrim u.value)), ("password", .str p.value)], false⟩ =
        .ok (apiResult resp) := by
    simp [api, hresp]
  have hrok : (apiResult resp).ok = true := hok
  have hor : jsOr (jsOr (optGet (apiResult resp).data "access_token")
      (optGet (apiResult resp).data "token")) .null =
        jsOr (optGet (apiResult resp).data "access_token")
          (optGet (apiResult resp).data "token") := by
    generalize jsOr (optGet (apiResult resp).data "access_token")
      (optGet (apiResult resp).data "token") = v at hjwt
    simp only [jsOr, hjwt, if_true]
  have hclick : loginClick net w =
      { setStatus "login-status" "Logged in! Redirecting…" true
          { (apiCall net ENDPOINTS_login
              ⟨"POST", .obj [("username", .str (jsTrim u.value)), ("password", .str p.value)],
                false⟩ (clearStatus "login-status" w)).1 with
            storage := setItem "jwt" stored w.storage } with
        href := "items.html" } := by
    simp [loginClick, hu1, hp1, hu, hp, hne, hpw, apiCall, hf.1, hf.2.1, hapi, hrok, hor, hjwt,
      hstr]
  rw [hclick]
  refine ⟨?_, ?_, rfl⟩
  · have h1 : ∀ w1 : World, statusLine "login-status"
        { w1 with href := "items.html" } = statusLine "login-status" w1 := fun _ => rfl
    rw [h1, statusLine_setStatus]
    · simp
    · have h2 : getElementById "login-status"
          { (apiCall net ENDPOINTS_login
              ⟨"POST", .obj [("username", .str (jsTrim u.value)), ("password", .str p.value)],
                false⟩ (clearStatus "login-status" w)).1 with
            storage := setItem "jwt" stored w.storage } =
          getElementById "login-status" (clearStatus "login-status" w) := rfl
      rw [h2, isSome_clearStatus]
      exact hs
  · show (setStatus _ _ _ _).storage = _
    rw [(setStatus_fields _ _ _ _).1]

theorem statusLine_after_plain_call (net : Net) (path id msg : String) (opts : ApiOptions)
    (ok : Bool) (w : World) (h : (getElementById id w).isSome = true) :
    statusLine id (setStatus id msg ok (apiCall net path opts w).1) =
      some ("status " ++ (if ok then "ok" else "err"), msg) := by
  apply statusLine_setStatus
  exact h

theorem registerClick_response (net : Net) (w : World) (u m p : Elem) (resp : Response)
    (hu : getElementById "reg-username" w = some u)
    (hm : getElementById "reg-email" w = some m)
    (hp : getElementById "reg-password" w = some p)
    (hne : jsTrim u.value ≠ "") (hme : jsTrim m.value ≠ "") (hpw : p.value ≠ "")
    (hresp : net w.sent (apiRequest w.storage ENDPOINTS_register
      ⟨"POST",
        .obj [("username", .str (jsTrim u.value)), ("email", .str (jsTrim m.value)),
          ("password", .str p.value)],
        false⟩) = .ok resp)
    (hs : (getElementById "register-status" w).isSome = true) :
    (resp.ok = false → ∀ msg,
      errorText resp.status (apiResult resp).data "Registration failed." = .ok msg →
        statusLine "register-status" (registerClick net w) = some ("status err", msg)) ∧
    (resp.ok = true →
      statusLine "register-status" (registerClick net w) =
        some ("status ok", "Success! You can now log in.")) := by
  have hu1 := getElementById_clearStatus_other "register-status" "reg-username" w (by decide)
  have hm1 := getElementById_clearStatus_other "register-status" "reg-email" w (by decide)
  have hp1 := getElementById_clearStatus_other "register-status" "reg-password" w (by decide)
  have hf := clearStatus_fields "register-status" w
  have hapi : api (net w.sent) w.storage ENDPOINTS_register
      ⟨"POST",
        .obj [("username", .str (jsTrim u.value)), ("email", .str (jsTrim m.value)),
          ("password", .str p.value)],
        false⟩ = .ok (apiResult resp) := by
    simp [api, hresp]
  constructor
  · intro hok msg hmsg
    have hrok : (apiResult resp).ok = false := hok
    have hmsg1 : errorText (apiResult resp).status (apiResult resp).data
        "Registration failed." = .ok msg := hmsg
    have hclick : registerClick net w =
        setStatus "register-status" msg false
          (apiCall net ENDPOINTS_register
            ⟨"POST",
              .obj [("username", .str (jsTrim u.value)), ("email", .str (jsTrim m.value)),
                ("password", .str p.value)],
              false⟩ (clearStatus "register-status" w)).1 := by
      simp [registerClick, hu1, hm1, hp1, hu, hm, hp, hne, hme, hpw, apiCall, hf.1, hf.2.1,
        hapi, hrok, hmsg1]
    rw [hclick, statusLine_after_call net _ _ _ _ _ w hs]
    simp
  · intro hok
    have hrok : (apiResult resp).ok = true := hok
    have hclick : registerClick net w =
        { setStatus "register-status" "Success! You can now log in." true
            (apiCall net ENDPOINTS_register
              ⟨"POST",
                .obj [("username", .str (jsTrim u.value)), ("email", .str (jsTrim m.value)),
                  ("password", .str p.value)],
                false⟩ (clearStatus "register-status" w)).1 with
          href := "thankyou.html" } := by
      simp [registerClick, hu1, hm1, hp1, hu, hm, hp, hne, hme, hpw, apiCall, hf.1, hf.2.1,
        hapi, hrok]
    have h1 : ∀ w1 : World, statusLine "register-status"
        { w1 with href := "thankyou.html" } = statusLine "register-status" w1 := fun _ => rfl
    rw [hclick, h1, statusLine_after_call net _ _ _ _ _ w hs]
    simp

theorem createItemClick_error (net : Net) (hasMatch : Matcher) (w : World) (n d : Elem)
    (resp : Response)
    (msg : String)
    (hn : getElementById "item-name" w = some n)
    (hd : getElementById "item-desc" w = some d)
    (hne : jsTrim n.value ≠ "")
    (hresp : net w.sent (apiRequest w.storage ENDPOINTS_items_create
      ⟨"POST", .obj [("name", .str (jsTrim n.value)), ("description", .str (jsTrim d.value))],
        true⟩) = .ok resp)
    (hs : (getElementById "items-status" w).isSome = true)
    (hok : resp.ok = false)
    (hmsg : errorText resp.status (apiResult resp).data "Create failed." = .ok msg) :
    statusLine "items-status" (createItemClick net hasMatch w) = some ("status err", msg) := by
  have hn1 := getElementById_clearStatus_other "items-status" "item-name" w (by decide)
  have hd1 := getElementById_clearStatus_other "items-status" "item-desc" w (by decide)
  have hf := clearStatus_fields "items-status" w
  have hapi : api (net w.sent) w.storage ENDPOINTS_items_create
      ⟨"POST", .obj [("name", .str (jsTrim n.value)), ("description", .str (jsTrim d.value))],
        true⟩ = .ok (apiResult resp) := by
    simp [api, hresp]
  have hrok : (apiResult resp).ok = false := hok
  have hmsg1 : errorText (apiResult resp).status (apiResult resp).data "Create failed." =
      .ok msg := hmsg
  have hclick : createItemClick net hasMatch w =
      setStatus "items-status" msg false
        (apiCall net ENDPOINTS_items_create
          ⟨"POST",
            .obj [("name", .str (jsTrim n.value)), ("description", .str (jsTrim d.value))],
            true⟩ (clearStatus "items-status" w)).1 := by
    simp [createItemClick, hn1, hd1, hn, hd, hne, apiCall, hf.1, hf.2.1, hapi, hrok, hmsg1]
  rw [hclick, statusLine_after_call net _ _ _ _ _ w hs]
  simp

theorem saveClick_error (net : Net) (hasMatch : Matcher) (w : World) (id : JsVal)
    (nameValue descValue : String)
    (path msg : String) (resp : Response)
    (hpath : ENDPOINTS_items_update_id id = .ok path)
    (hresp : net w.sent (apiRequest w.storage path
      ⟨"PUT", .obj [("name", .str (jsTrim nameValue)), ("description", .str (jsTrim descValue))],
        true⟩) = .ok resp)
    (hs : (getElementById "items-status" w).isSome = true)
    (hok : resp.ok = false)
    (hmsg : errorText resp.status (apiResult resp).data "Update failed." = .ok msg) :
    statusLine "items-status" (saveClick net hasMatch id (some nameValue) (some descValue) w) =
      some ("status err", msg) := by
  have hapi : api (net w.sent) w.storage path
      ⟨"PUT", .obj [("name", .str (jsTrim nameValue)), ("description", .str (jsTrim descValue))],
        true⟩ = .ok (apiResult resp) := by
    simp [api, hresp]
  have hrok : (apiResult resp).ok = false := hok
  have hmsg1 : errorText (apiResult resp).status (apiResult resp).data "Update failed." =
      .ok msg := hmsg
  have hclick : saveClick net hasMatch id (some nameValue) (some descValue) w =
      setStatus "items-status" msg false
        (apiCall net path
          ⟨"PUT",
            .obj [("name", .str (jsTrim nameValue)), ("description", .str (jsTrim descValue))],
            true⟩ w).1 := by
    simp [saveClick, hpath, apiCall, hapi, hrok, hmsg1]
  rw [hclick, statusLine_after_plain_call net _ _ _ _ _ w hs]
  simp

theorem deleteClick_error (net : Net) (hasMatch : Matcher) (w : World) (id : JsVal)
    (path msg : String)
    (resp : Response)
    (hpath : ENDPOINTS_items_delete_id id = .ok path)
    (hresp : net w.sent (apiRequest w.storage path ⟨"DELETE", .undefined, true⟩) = .ok resp)
    (hs : (getElementById "items-status" w).isSome = true)
    (hok : resp.ok = false)
    (hmsg : errorText resp.status (apiResult resp).data "Delete failed." = .ok msg) :
    statusLine "items-status" (deleteClick net hasMatch id true w) = some ("status err", msg) := by
  have hapi : api (net w.sent) w.storage path ⟨"DELETE", .undefined, true⟩ =
      .ok (apiResult resp) := by
    simp [api, hresp]
  have hrok : (apiResult resp).ok = false := hok
  have hmsg1 : errorText (apiResult resp).status (apiResult resp).data "Delete failed." =
      .ok msg := hmsg
  have hclick : deleteClick net hasMatch id true w =
      setStatus "items-status" msg false
        (apiCall net path ⟨"DELETE", .undefined, true⟩ w).1 := by
    simp [deleteClick, hpath, apiCall, hapi, hrok, hmsg1]
  rw [hclick, statusLine_after_plain_call net _ _ _ _ _ w hs]
  simp

theorem appendRows_dom (hasMatch : Matcher) (its : List JsVal) (w : World) : (appendRows hasMatch its w).dom = w.dom := by
  induction its generalizing w with
  | nil => rfl
  | cons it rest ih =>
    unfold appendRows
    cases renderRow hasMatch it with
    | error e => rfl
    | ok row =>
      simp only []
      rw [ih]
      unfold appendRow
      cases w.table <;> rfl

theorem loadItems_dom (net : Net) (hasMatch : Matcher) (w : World) :
    (loadItems net hasMatch w).dom = (clearStatus "items-status" w).dom := by
  unfold loadItems
  simp only []
  cases (clearStatus "items-status" w).table with
  | none => rfl
  | some tb =>
    simp only []
    cases (apiCall net ENDPOINTS_items_list ⟨"GET", .undefined, true⟩
      (setTableHtml
        "<tr><td colspan=\"4\" class=\"hint\" style=\"padding:14px;\">Loading…</td></tr>"
        (clearStatus "items-status" w))).2 with
    | error e => rfl
    | ok r =>
      simp only []
      split_ifs
      · rfl
      · rfl
      · split
        · rfl
        · rw [appendRows_dom]
          rfl

theorem statusLine_of_dom (id : String) (w1 w2 : World) (h : w1.dom = w2.dom) :
    statusLine id w1 = statusLine id w2 := by
  unfold statusLine getElementById
  rw [h]

theorem statusLine_loadItems (net : Net) (hasMatch : Matcher) (w : World)
    (h : (getElementById "items-status" w).isSome = true) :
    statusLine "items-status" (loadItems net hasMatch w) = some ("status", "") := by
  rw [statusLine_of_dom _ _ _ (loadItems_dom net hasMatch w)]
  unfold statusLine clearStatus
  cases hg : getElementById "items-status" w with
  | none => simp [hg] at h
  | some el => simp [getElementById_setElem_self, hg]

/-- After a successful save or delete the handler calls `loadItems()`, whose
first statement clears the status line: the success message written just
before it is gone when the handler returns. -/
theorem items_success_message_cleared (net : Net) (hasMatch : Matcher) (w : World)
    (id : JsVal)
    (nameValue descValue path : String) (resp : Response)
    (hs : (getElementById "items-status" w).isSome = true) (hok : resp.ok = true) :
    (ENDPOINTS_items_update_id id = .ok path →
      net w.sent (apiRequest w.storage path
        ⟨"PUT",
          .obj [("name", .str (jsTrim nameValue)), ("description", .str (jsTrim descValue))],
          true⟩) = .ok resp →
      statusLine "items-status" (saveClick net hasMatch id (some nameValue) (some descValue) w) =
        some ("status", "")) ∧
    (ENDPOINTS_items_delete_id id = .ok path →
      net w.sent (apiRequest w.storage path ⟨"DELETE", .undefined, true⟩) = .ok resp →
      statusLine "items-status" (deleteClick net hasMatch id true w) = some ("status", "")) := by
  have hrok : (apiResult resp).ok = true := hok
  constructor
  · intro hpath hresp
    have hapi : api (net w.sent) w.storage path
        ⟨"PUT",
          .obj [("name", .str (jsTrim nameValue)), ("description", .str (jsTrim descValue))],
          true⟩ = .ok (apiResult resp) := by
      simp [api, hresp]
    have hclick : saveClick net hasMatch id (some nameValue) (some descValue) w =
        loadItems net hasMatch (setStatus "items-status" "Saved." true
          (apiCall net path
            ⟨"PUT",
              .obj [("name", .str (jsTrim nameValue)), ("description", .str (jsTrim descValue))],
              true⟩ w).1) := by
      simp [saveClick, hpath, apiCall, hapi, hrok]
    rw [hclick]
    apply statusLine_loadItems
    have h1 := statusLine_after_plain_call net path "items-status" "Saved."
      ⟨"PUT",
        .obj [("name", .str (jsTrim nameValue)), ("description", .str (jsTrim descValue))],
        true⟩ true w hs
    unfold statusLine at h1
    cases hg : getElementById "items-status" (setStatus "items-status" "Saved." true
        (apiCall net path
          ⟨"PUT",
            .obj [("name", .str (jsTrim nameValue)), ("description", .str (jsTrim descValue))],
            true⟩ w).1) with
    | none => simp [hg] at h1
    | some el => rfl
  · intro hpath hresp
    have hapi : api (net w.sent) w.storage path ⟨"DELETE", .undefined, true⟩ =
        .ok (apiResult resp) := by
      simp [api, hresp]
    have hclick : deleteClick net hasMatch id true w =
        loadItems net hasMatch (setStatus "items-status" "Deleted." true
          (apiCall net path ⟨"DELETE", .undefined, true⟩ w).1) := by
      simp [deleteClick, hpath, apiCall, hapi, hrok]
    rw [hclick]
    apply statusLine_loadItems
    have h1 := statusLine_after_plain_call net path "items-status" "Deleted."
      ⟨"DELETE", .undefined, true⟩ true w hs
    unfold statusLine at h1
    cases hg : getElementById "items-status" (setStatus "items-status" "Deleted." true
        (apiCall net path ⟨"DELETE", .undefined, true⟩ w).1) with
    | none => simp [hg] at h1
    | some el => rfl

/-- The same on a concrete items page: after a create answered with 201 the
status line is empty, and the list has been requested again. -/
theorem create_success_message_cleared :
    statusLine "items-status"
      (createItemClick (fun _ _ => .ok ⟨201, some (.obj [("id", .num JsNum.one)])⟩)
        (fun _ _ => true) filledItemsPage) =
        some ("status", "") ∧
    ((createItemClick (fun _ _ => .ok ⟨201, some (.obj [("id", .num JsNum.one)])⟩)
      (fun _ _ => true) filledItemsPage).sent.map (fun r => (r.method, r.url))) =
        [("POST", "/item/create/"), ("GET", "/item/read/")] := by
  decide

theorem detail_cases (data : JsVal) (fallback : String) :
    (∃ shown, ShowsDetail data fallback shown) ∨
      (truthy (optGet data "detail") = true ∧
        ∃ e, jsToString (optGet data "detail") = .error e) := by
  by_cases ht : truthy (optGet data "detail") = true
  · cases hs : jsToString (optGet data "detail") with
    | ok shown => exact Or.inl ⟨shown, Or.inr ⟨ht, hs⟩⟩
    | error e => exact Or.inr ⟨ht, e, rfl⟩
  · have hf : truthy (optGet data "detail") = false := by simpa using ht
    exact Or.inl ⟨fallback, Or.inl ⟨hf, rfl⟩⟩

theorem errorText_of_throw (status : Nat) (data : JsVal) (fallback : String) (e : JsError)
    (ht : truthy (optGet data "detail") = true)
    (he : jsToString (optGet data "detail") = .error e) :
    errorText status data fallback = .error e := by
  simp only [errorText, jsOr, ht, if_true, he]

theorem statusLine_clearStatus (id : String) (w : World)
    (h : (getElementById id w).isSome = true) :
    statusLine id (clearStatus id w) = some ("status", "") := by
  unfold statusLine clearStatus
  cases hg : getElementById id w with
  | none => simp [hg] at h
  | some el => simp [getElementById_setElem_self, hg]

theorem raise_after_call (net : Net) (path id : String) (opts : ApiOptions) (e : JsError)
    (w : World) (h : (getElementById id w).isSome = true) :
    statusLine id (raise e (apiCall net path opts (clearStatus id w)).1) =
        some ("status", "") ∧
    (raise e (apiCall net path opts (clearStatus id w)).1).unhandled = w.unhandled ++ [e] ∧
    (raise e (apiCall net path opts (clearStatus id w)).1).storage = w.storage := by
  refine ⟨?_, ?_, ?_⟩
  · exact statusLine_clearStatus id w h
  · show (clearStatus id w).unhandled ++ [e] = _
    rw [(clearStatus_fields id w).2.2.2.1]
  · exact (clearStatus_fields id w).1

theorem raise_after_plain_call (net : Net) (path id : String) (opts : ApiOptions)
    (e : JsError) (w : World) :
    statusLine id (raise e (apiCall net path opts w).1) = statusLine id w ∧
    (raise e (apiCall net path opts w).1).unhandled = w.unhandled ++ [e] :=
  ⟨rfl, rfl⟩

theorem loginClick_throw (net : Net) (w : World) (u p : Elem) (resp : Response)
    (e : JsError)
    (hu : getElementById "login-username" w = some u)
    (hp : getElementById "login-password" w = some p)
    (hne : jsTrim u.value ≠ "") (hpw : p.value ≠ "")
    (hresp : net w.sent (apiRequest w.storage ENDPOINTS_login
      ⟨"POST", .obj [("username", .str (jsTrim u.value)), ("password", .str p.value)], false⟩) =
        .ok resp) :
    (resp.ok = false →
      errorText resp.status (apiResult resp).data "Login failed." = .error e →
      loginClick net w =
        raise e
          (apiCall net ENDPOINTS_login
            ⟨"POST", .obj [("username", .str (jsTrim u.value)), ("password", .str p.value)],
              false⟩ (clearStatus "login-status" w)).1) ∧
    (resp.ok = true →
      truthy (jsOr (optGet (apiResult resp).data "access_token")
        (optGet (apiResult resp).data "token")) = true →
      jsToString (jsOr (optGet (apiResult resp).data "access_token")
        (optGet (apiResult resp).data "token")) = .error e →
      loginClick net w =
        raise e
          (apiCall net ENDPOINTS_login
            ⟨"POST", .obj [("username", .str (jsTrim u.value)), ("password", .str p.value)],
              false⟩ (clearStatus "login-status" w)).1) := by
  have hu1 := getElementById_clearStatus_other "login-status" "login-username" w (by decide)
  have hp1 := getElementById_clearStatus_other "login-status" "login-password" w (by decide)
  have hf := clearStatus_fields "login-status" w
  have hapi : api (net w.sent) w.storage ENDPOINTS_login
      ⟨"POST", .obj [("username", .str (jsTrim u.value)), ("password", .str p.value)], false⟩ =
        .ok (apiResult resp) := by
    simp [api, hresp]
  constructor
  · intro hok hmsg
    have hrok : (apiResult resp).ok = false := hok
    have hmsg1 : errorText (apiResult resp).status (apiResult resp).data "Login failed." =
        .error e := hmsg
    simp [loginClick, hu1, hp1, hu, hp, hne, hpw, apiCall, hf.1, hf.2.1, hapi, hrok, hmsg1]
  · intro hok hjwt hstr
    have hrok : (apiResult resp).ok = true := hok
    have hor : jsOr (jsOr (optGet (apiResult resp).data "access_token")
        (optGet (apiResult resp).data "token")) .null =
          jsOr (optGet (apiResult resp).data "access_token")
            (optGet (apiResult resp).data "token") := by
      generalize jsOr (optGet (apiResult resp).data "access_token")
        (optGet (apiResult resp).data "token") = v at hjwt
      simp only [jsOr, hjwt, if_true]
    simp [loginClick, hu1, hp1, hu, hp, hne, hpw, apiCall, hf.1, hf.2.1, hapi, hrok, hor, hjwt,
      hstr]

theorem registerClick_throw (net : Net) (w : World) (u m p : Elem) (resp : Response)
    (e : JsError)
    (hu : getElementById "reg-username" w = some u)
    (hm : getElementById "reg-email" w = some m)
    (hp : getElementById "reg-password" w = some p)
    (hne : jsTrim u.value ≠ "") (hme : jsTrim m.value ≠ "") (hpw : p.value ≠ "")
    (hresp : net w.sent (apiRequest w.storage ENDPOINTS_register
      ⟨"POST",
        .obj [("username", .str (jsTrim u.value)), ("email", .str (jsTrim m.value)),
          ("password", .str p.value)],
        false⟩) = .ok resp)
    (hok : resp.ok = false)
    (hmsg : errorText resp.status (apiResult resp).data "Registration failed." = .error e) :
    registerClick net w =
      raise e
        (apiCall net ENDPOINTS_register
          ⟨"POST",
            .obj [("username", .str (jsTrim u.value)), ("email", .str (jsTrim m.value)),
              ("password", .str p.value)],
            false⟩ (clearStatus "register-status" w)).1 := by
  have hu1 := getElementById_clearStatus_other "register-status" "reg-username" w (by decide)
  have hm1 := getElementById_clearStatus_other "register-status" "reg-email" w (by decide)
  have hp1 := getElementById_clearStatus_other "register-status" "reg-password" w (by decide)
  have hf := clearStatus_fields "register-status" w
  have hapi : api (net w.sent) w.storage ENDPOINTS_register
      ⟨"POST",
        .obj [("username", .str (jsTrim u.value)), ("email", .str (jsTrim m.value)),
          ("password", .str p.value)],
        false⟩ = .ok (apiResult resp) := by
    simp [api, hresp]
  have hrok : (apiResult resp).ok = false := hok
  have hmsg1 : errorText (apiResult resp).status (apiResult resp).data
      "Registration failed." = .error e := hmsg
  simp [registerClick, hu1, hm1, hp1, hu, hm, hp, hne, hme, hpw, apiCall, hf.1, hf.2.1,
    hapi, hrok, hmsg1]

theorem createItemClick_throw (net : Net) (hasMatch : Matcher) (w : World) (n d : Elem)
    (resp : Response) (e : JsError)
    (hn : getElementById "item-name" w = some n)
    (hd : getElementById "item-desc" w = some d)
    (hne : jsTrim n.value ≠ "")
    (hresp : net w.sent (apiRequest w.storage ENDPOINTS_items_create
      ⟨"POST", .obj [("name", .str (jsTrim n.value)), ("description", .str (jsTrim d.value))],
        true⟩) = .ok resp)
    (hok : resp.ok = false)
    (hmsg : errorText resp.status (apiResult resp).data "Create failed." = .error e) :
    createItemClick net hasMatch w =
      raise e
        (apiCall net ENDPOINTS_items_create
          ⟨"POST",
            .obj [("name", .str (jsTrim n.value)), ("description", .str (jsTrim d.value))],
            true⟩ (clearStatus "items-status" w)).1 := by
  have hn1 := getElementById_clearStatus_other "items-status" "item-name" w (by decide)
  have hd1 := getElementById_clearStatus_other "items-status" "item-desc" w (by decide)
  have hf := clearStatus_fields "items-status" w
  have hapi : api (net w.sent) w.storage ENDPOINTS_items_create
      ⟨"POST", .obj [("name", .str (jsTrim n.value)), ("description", .str (jsTrim d.value))],
        true⟩ = .ok (apiResult resp) := by
    simp [api, hresp]
  have hrok : (apiResult resp).ok = false := hok
  have hmsg1 : errorText (apiResult resp).status (apiResult resp).data "Create failed." =
      .error e := hmsg
  simp [createItemClick, hn1, hd1, hn, hd, hne, apiCall, hf.1, hf.2.1, hapi, hrok, hmsg1]

theorem saveClick_throw (net : Net) (hasMatch : Matcher) (w : World) (id : JsVal)
    (nameValue descValue path : String) (resp : Response) (e : JsError)
    (hpath : ENDPOINTS_items_update_id id = .ok path)
    (hresp : net w.sent (apiRequest w.storage path
      ⟨"PUT", .obj [("name", .str (jsTrim nameValue)), ("description", .str (jsTrim descValue))],
        true⟩) = .ok resp)
    (hok : resp.ok = false)
    (hmsg : errorText resp.status (apiResult resp).data "Update failed." = .error e) :
    saveClick net hasMatch id (some nameValue) (some descValue) w =
      raise e
        (apiCall net path
          ⟨"PUT",
            .obj [("name", .str (jsTrim nameValue)), ("description", .str (jsTrim descValue))],
            true⟩ w).1 := by
  have hapi : api (net w.sent) w.storage path
      ⟨"PUT", .obj [("name", .str (jsTrim nameValue)), ("description", .str (jsTrim descValue))],
        true⟩ = .ok (apiResult resp) := by
    simp [api, hresp]
  have hrok : (apiResult resp).ok = false := hok
  have hmsg1 : errorText (apiResult resp).status (apiResult resp).data "Update failed." =
      .error e := hmsg
  simp [saveClick, hpath, apiCall, hapi, hrok, hmsg1]

theorem deleteClick_throw (net : Net) (hasMatch : Matcher) (w : World) (id : JsVal)
    (path : String) (resp : Response) (e : JsError)
    (hpath : ENDPOINTS_items_delete_id id = .ok path)
    (hresp : net w.sent (apiRequest w.storage path ⟨"DELETE", .undefined, true⟩) = .ok resp)
    (hok : resp.ok = false)
    (hmsg : errorText resp.status (apiResult resp).data "Delete failed." = .error e) :
    deleteClick net hasMatch id true w =
      raise e (apiCall net path ⟨"DELETE", .undefined, true⟩ w).1 := by
  have hapi : api (net w.sent) w.storage path ⟨"DELETE", .undefined, true⟩ =
      .ok (apiResult resp) := by
    simp [api, hresp]
  have hrok : (apiResult resp).ok = false := hok
  have hmsg1 : errorText (apiResult resp).status (apiResult resp).data "Delete failed." =
      .error e := hmsg
  simp [deleteClick, hpath, apiCall, hapi, hrok, hmsg1]

/-- C9 as stated fails: an ok login response without a token leaves an error
on the status line, not a success message; a detail the server supplied as `0`
is not shown, the fallback is; and a detail with no string form, an object
with an own member `toString`, makes the handler throw, so that no error line
is set at all. -/
theorem status_line_not_always_as_claimed :
    (apiResult ⟨200, some (.obj [("user", .str "ann")])⟩).ok = true ∧
    statusLine "login-status"
      (loginClick (fun _ _ => .ok ⟨200, some (.obj [("user", .str "ann")])⟩) filledLoginPage) =
        some ("status err", "No token returned by API. Check endpoint mapping.") ∧
    optGet (apiResult ⟨400, some (.obj [("detail", .num JsNum.zero)])⟩).data "detail" =
      .num JsNum.zero ∧
    statusLine "register-status"
      (registerClick (fun _ _ => .ok ⟨400, some (.obj [("detail", .num JsNum.zero)])⟩)
        filledRegisterPage) =
        some ("status err", "Error (400): Registration failed.") ∧
    statusLine "register-status"
      (registerClick
        (fun _ _ => .ok ⟨422, some (.obj [("detail", .obj [("toString", .num JsNum.one)])])⟩)
        filledRegisterPage) = some ("status", "") ∧
    (registerClick
      (fun _ _ => .ok ⟨422, some (.obj [("detail", .obj [("toString", .num JsNum.one)])])⟩)
      filledRegisterPage).unhandled = [convertError] := by
  refine ⟨by decide, by decide, rfl, by decide, by decide, by decide⟩

/-- C9, amended: for the login, register, create-item, update-item and
delete-item handlers and every non-ok api result, the status line is set as an
error to "Error (status): " followed by `data.detail` as a string when
`data.detail` is truthy and has a string form, and by the operation's fallback
when it is falsy; when `data.detail` is truthy and has no string form the
handler throws a `TypeError` and sets no error line (the line stays cleared
for login, register and create, and as it was for update and delete).  On an
ok result register sets its success message; login sets its success message
when the payload carries a truthy `access_token` or `token` that has a string
form, throws when that token has none, and sets the error
"No token returned by API. Check endpoint mapping." when the payload carries
neither.  Every non-ok result falls under one of the three cases. -/
theorem status_line_after_response (net : Net) (hasMatch : Matcher) (w : World)
    (resp : Response) :
    (∀ u p : Elem,
      getElementById "login-username" w = some u →
      getElementById "login-password" w = some p →
      jsTrim u.value ≠ "" → p.value ≠ "" →
      net w.sent (apiRequest w.storage ENDPOINTS_login
        ⟨"POST", .obj [("username", .str (jsTrim u.value)), ("password", .str p.value)],
          false⟩) = .ok resp →
      (getElementById "login-status" w).isSome = true →
        (resp.ok = false → ∀ shown, ShowsDetail (apiResult resp).data "Login failed." shown →
          statusLine "login-status" (loginClick net w) =
            some ("status err", "Error (" ++ toString resp.status ++ "): " ++ shown)) ∧
        (resp.ok = false → ∀ e,
          truthy (optGet (apiResult resp).data "detail") = true →
          jsToString (optGet (apiResult resp).data "detail") = .error e →
          statusLine "login-status" (loginClick net w) = some ("status", "") ∧
            (loginClick net w).unhandled = w.unhandled ++ [e]) ∧
        (resp.ok = true → ∀ stored,
          truthy (jsOr (optGet (apiResult resp).data "access_token")
            (optGet (apiResult resp).data "token")) = true →
          jsToString (jsOr (optGet (apiResult resp).data "access_token")
            (optGet (apiResult resp).data "token")) = .ok stored →
          statusLine "login-status" (loginClick net w) =
            some ("status ok", "Logged in! Redirecting…")) ∧
        (resp.ok = true → ∀ e,
          truthy (jsOr (optGet (apiResult resp).data "access_token")
            (optGet (apiResult resp).data "token")) = true →
          jsToString (jsOr (optGet (apiResult resp).data "access_token")
            (optGet (apiResult resp).data "token")) = .error e →
          statusLine "login-status" (loginClick net w) = some ("status", "") ∧
            (loginClick net w).unhandled = w.unhandled ++ [e] ∧
            (loginClick net w).storage = w.storage) ∧
        (resp.ok = true →
          truthy (optGet (apiResult resp).data "access_token") = false →
          truthy (optGet (apiResult resp).data "token") = false →
          statusLine "login-status" (loginClick net w) =
            some ("status err", "No token returned by API. Check endpoint mapping."))) ∧
    (∀ u m p : Elem,
      getElementById "reg-username" w = some u →
      getElementById "reg-email" w = some m →
      getElementById "reg-password" w = some p →
      jsTrim u.value ≠ "" → jsTrim m.value ≠ "" → p.value ≠ "" →
      net w.sent (apiRequest w.storage ENDPOINTS_register
        ⟨"POST",
          .obj [("username", .str (jsTrim u.value)), ("email", .str (jsTrim m.value)),
            ("password", .str p.value)],
          false⟩) = .ok resp →
      (getElementById "register-status" w).isSome = true →
        (resp.ok = false → ∀ shown,
          ShowsDetail (apiResult resp).data "Registration failed." shown →
          statusLine "register-status" (registerClick net w) =
            some ("status err", "Error (" ++ toString resp.status ++ "): " ++ shown)) ∧
        (resp.ok = false → ∀ e,
          truthy (optGet (apiResult resp).data "detail") = true →
          jsToString (optGet (apiResult resp).data "detail") = .error e →
          statusLine "register-status" (registerClick net w) = some ("status", "") ∧
            (registerClick net w).unhandled = w.unhandled ++ [e]) ∧
        (resp.ok = true →
          statusLine "register-status" (registerClick net w) =
            some ("status ok", "Success! You can now log in."))) ∧
    (∀ n d : Elem,
      getElementById "item-name" w = some n →
      getElementById "item-desc" w = some d →
      jsTrim n.value ≠ "" →
      net w.sent (apiRequest w.storage ENDPOINTS_items_create
        ⟨"POST", .obj [("name", .str (jsTrim n.value)), ("description", .str (jsTrim d.value))],
          true⟩) = .ok resp →
      (getElementById "items-status" w).isSome = true →
      resp.ok = false →
        (∀ shown, ShowsDetail (apiResult resp).data "Create failed." shown →
          statusLine "items-status" (createItemClick net hasMatch w) =
            some ("status err", "Error (" ++ toString resp.status ++ "): " ++ shown)) ∧
        (∀ e,
          truthy (optGet (apiResult resp).data "detail") = true →
          jsToString (optGet (apiResult resp).data "detail") = .error e →
          statusLine "items-status" (createItemClick net hasMatch w) = some ("status", "") ∧
            (createItemClick net hasMatch w).unhandled = w.unhandled ++ [e])) ∧
    (∀ (id : JsVal) (nameValue descValue path : String),
      ENDPOINTS_items_update_id id = .ok path →
      net w.sent (apiRequest w.storage path
        ⟨"PUT",
          .obj [("name", .str (jsTrim nameValue)), ("description", .str (jsTrim descValue))],
          true⟩) = .ok resp →
      (getElementById "items-status" w).isSome = true →
      resp.ok = false →
        (∀ shown, ShowsDetail (apiResult resp).data "Update failed." shown →
          statusLine "items-status"
              (saveClick net hasMatch id (some nameValue) (some descValue) w) =
            some ("status err", "Error (" ++ toString resp.status ++ "): " ++ shown)) ∧
        (∀ e,
          truthy (optGet (apiResult resp).data "detail") = true →
          jsToString (optGet (apiResult resp).data "detail") = .error e →
          statusLine "items-status"
              (saveClick net hasMatch id (some nameValue) (some descValue) w) =
            statusLine "items-status" w ∧
            (saveClick net hasMatch id (some nameValue) (some descValue) w).unhandled =
              w.unhandled ++ [e])) ∧
    (∀ (id : JsVal) (path : String),
      ENDPOINTS_items_delete_id id = .ok path →
      net w.sent (apiRequest w.storage path ⟨"DELETE", .undefined, true⟩) = .ok resp →
      (getElementById "items-status" w).isSome = true →
      resp.ok = false →
        (∀ shown, ShowsDetail (apiResult resp).data "Delete failed." shown →
          statusLine "items-status" (deleteClick net hasMatch id true w) =
            some ("status err", "Error (" ++ toString resp.status ++ "): " ++ shown)) ∧
        (∀ e,
          truthy (optGet (apiResult resp).data "detail") = true →
          jsToString (optGet (apiResult resp).data "detail") = .error e →
          statusLine "items-status" (deleteClick net hasMatch id true w) =
            statusLine "items-status" w ∧
            (deleteClick net hasMatch id true w).unhandled = w.unhandled ++ [e])) ∧
    (∀ fallback : String,
      (∃ shown, ShowsDetail (apiResult resp).data fallback shown) ∨
        (truthy (optGet (apiResult resp).data "detail") = true ∧
          ∃ e, jsToString (optGet (apiResult resp).data "detail") = .error e)) := by
  refine ⟨?_, ?_, ?_, ?_, ?_, detail_cases _⟩
  · intro u p hu hp hne hpw hresp hs
    refine ⟨?_, ?_, ?_, ?_, ?_⟩
    · intro hok shown hshown
      rw [loginClick_error net w u p resp _ hu hp hne hpw hresp hok
        (errorText_of_shown _ _ _ _ hshown), statusLine_after_call net _ _ _ _ _ w hs]
      simp
    · intro hok e ht he
      rw [(loginClick_throw net w u p resp e hu hp hne hpw hresp).1 hok
        (errorText_of_throw _ _ _ _ ht he)]
      have h := raise_after_call net ENDPOINTS_login "login-status"
        ⟨"POST", .obj [("username", .str (jsTrim u.value)), ("password", .str p.value)], false⟩
        e w hs
      exact ⟨h.1, h.2.1⟩
    · intro hok stored hjwt hstr
      exact (loginClick_success net w u p resp stored hu hp hne hpw hresp hok hjwt hstr hs).1
    · intro hok e hjwt hstr
      rw [(loginClick_throw net w u p resp e hu hp hne hpw hresp).2 hok hjwt hstr]
      exact raise_after_call net ENDPOINTS_login "login-status"
        ⟨"POST", .obj [("username", .str (jsTrim u.value)), ("password", .str p.value)], false⟩
        e w hs
    · intro hok h1 h2
      exact (loginClick_no_token_status net w u p resp hu hp hne hpw hresp hok h1 h2) hs
  · intro u m p hu hm hp hne hme hpw hresp hs
    have h := registerClick_response net w u m p resp hu hm hp hne hme hpw hresp hs
    refine ⟨fun hok shown hshown => h.1 hok _ (errorText_of_shown _ _ _ _ hshown), ?_, h.2⟩
    intro hok e ht he
    rw [registerClick_throw net w u m p resp e hu hm hp hne hme hpw hresp hok
      (errorText_of_throw _ _ _ _ ht he)]
    have h1 := raise_after_call net ENDPOINTS_register "register-status"
      ⟨"POST",
        .obj [("username", .str (jsTrim u.value)), ("email", .str (jsTrim m.value)),
          ("password", .str p.value)],
        false⟩ e w hs
    exact ⟨h1.1, h1.2.1⟩
  · intro n d hn hd hne hresp hs hok
    constructor
    · intro shown hshown
      exact createItemClick_error net hasMatch w n d resp _ hn hd hne hresp hs hok
        (errorText_of_shown _ _ _ _ hshown)
    · intro e ht he
      rw [createItemClick_throw net hasMatch w n d resp e hn hd hne hresp hok
        (errorText_of_throw _ _ _ _ ht he)]
      have h1 := raise_after_call net ENDPOINTS_items_create "items-status"
        ⟨"POST",
          .obj [("name", .str (jsTrim n.value)), ("description", .str (jsTrim d.value))],
          true⟩ e w hs
      exact ⟨h1.1, h1.2.1⟩
  · intro id nameValue descValue path hpath hresp hs hok
    constructor
    · intro shown hshown
      exact saveClick_error net hasMatch w id nameValue descValue path _ resp hpath hresp hs
        hok (errorText_of_shown _ _ _ _ hshown)
    · intro e ht he
      rw [saveClick_throw net hasMatch w id nameValue descValue path resp e hpath hresp hok
        (errorText_of_throw _ _ _ _ ht he)]
      exact raise_after_plain_call net path "items-status" _ e w
  · intro id path hpath hresp hs hok
    constructor
    · intro shown hshown
      exact deleteClick_error net hasMatch w id path _ resp hpath hresp hs hok
        (errorText_of_shown _ _ _ _ hshown)
    · intro e ht he
      rw [deleteClick_throw net hasMatch w id path resp e hpath hresp hok
        (errorText_of_throw _ _ _ _ ht he)]
      exact raise_after_plain_call net path "items-status" _ e w

/-- Witness of the amended C9: a 401 whose payload carries a detail, and a 422
whose detail is the number `10^21`. -/
theorem status_line_after_response_witness :
    (ShowsDetail (apiResult ⟨401, some (.obj [("detail", .str "Invalid credentials")])⟩).data
        "Login failed." "Invalid credentials" ∧
      statusLine "login-status"
        (loginClick (fun _ _ => .ok ⟨401, some (.obj [("detail", .str "Invalid credentials")])⟩)
          filledLoginPage) =
        some ("status err", "Error (" ++ toString 401 ++ "): " ++ "Invalid credentials")) ∧
    (ShowsDetail (apiResult ⟨422, some (.obj [("detail", .num JsNum.sextillion)])⟩).data
        "Login failed." "1e+21" ∧
      statusLine "login-status"
        (loginClick (fun _ _ => .ok ⟨422, some (.obj [("detail", .num JsNum.sextillion)])⟩)
          filledLoginPage) =
        some ("status err", "Error (" ++ toString 422 ++ "): " ++ "1e+21")) :=
  ⟨⟨Or.inr ⟨rfl, rfl⟩,
      ((status_line_after_response
        (fun _ _ => .ok ⟨401, some (.obj [("detail", .str "Invalid credentials")])⟩)
        (fun _ _ => true) filledLoginPage
        ⟨401, some (.obj [("detail", .str "Invalid credentials")])⟩).1
        ⟨"", "", " ann ", ""⟩ ⟨"", "", "secret", ""⟩ rfl rfl (by decide) (by decide) rfl
        rfl).1 rfl "Invalid credentials" (Or.inr ⟨rfl, rfl⟩)⟩,
    ⟨Or.inr ⟨rfl, rfl⟩,
      ((status_line_after_response
        (fun _ _ => .ok ⟨422, some (.obj [("detail", .num JsNum.sextillion)])⟩)
        (fun _ _ => true) filledLoginPage
        ⟨422, some (.obj [("detail", .num JsNum.sextillion)])⟩).1
        ⟨"", "", " ann ", ""⟩ ⟨"", "", "secret", ""⟩ rfl rfl (by decide) (by decide) rfl
        rfl).1 rfl "1e+21" (Or.inr ⟨rfl, rfl⟩)⟩⟩

end ItemCrud
